import Mathlib

/-!
Verification of the telemetry decoding and alerting core of the
fleet-management-system repository.

The Python source is shallowly embedded: Python dicts become association
lists, floats become rationals (ℚ) except for the trigonometric geofence
math which uses ℝ, `bytes` become lists of naturals below 256, and the
mutable cooldown dictionary of the alert engine becomes explicit state
passing.  Each definition mirrors one function of the source tree.
-/

namespace Fleet

/-- Lookup in an association list, modelling Python dict access
(first binding wins; the insert below keeps keys unique). -/
def lookupAssoc {α β : Type} [DecidableEq α] : List (α × β) → α → Option β
  | [], _ => none
  | (k, v) :: rest, key => if k = key then some v else lookupAssoc rest key

/-- Insert into an association list, modelling Python dict assignment:
an existing binding of the key is replaced in place, otherwise the new
binding is appended at the end (dicts preserve insertion order). -/
def dictInsert {α β : Type} [DecidableEq α] : List (α × β) → α → β → List (α × β)
  | [], key, v => [(key, v)]
  | (k, w) :: rest, key, v =>
      if k = key then (key, v) :: rest else (k, w) :: dictInsert rest key v

theorem lookupAssoc_dictInsert_self {α β : Type} [DecidableEq α]
    (l : List (α × β)) (k : α) (v : β) :
    lookupAssoc (dictInsert l k v) k = some v := by
  induction l with
  | nil => simp [dictInsert, lookupAssoc]
  | cons hd tl ih =>
      obtain ⟨k2, w⟩ := hd
      by_cases h : k2 = k
      · simp [dictInsert, lookupAssoc, h]
      · simp [dictInsert, lookupAssoc, h, ih]

theorem lookupAssoc_dictInsert_ne {α β : Type} [DecidableEq α]
    (l : List (α × β)) (k k2 : α) (v : β) (h : k2 ≠ k) :
    lookupAssoc (dictInsert l k v) k2 = lookupAssoc l k2 := by
  have h2 : ¬k = k2 := fun e => h (Eq.symm e)
  induction l with
  | nil => simp [dictInsert, lookupAssoc, h2]
  | cons hd tl ih =>
      obtain ⟨k3, w⟩ := hd
      by_cases h3 : k3 = k
      · subst h3
        simp [dictInsert, lookupAssoc, h2]
      · by_cases h4 : k3 = k2 <;> simp [dictInsert, lookupAssoc, h3, h4, h, ih]

theorem lookupAssoc_dictInsert_isSome {α β : Type} [DecidableEq α]
    (l : List (α × β)) (k k2 : α) (v : β)
    (h : (lookupAssoc l k2).isSome ∨ k2 = k) :
    (lookupAssoc (dictInsert l k v) k2).isSome := by
  by_cases hk : k2 = k
  · rw [hk, lookupAssoc_dictInsert_self]; rfl
  · rw [lookupAssoc_dictInsert_ne l k k2 v hk]
    rcases h with h | h
    · exact h
    · exact absurd h hk

theorem mem_of_lookupAssoc {α β : Type} [DecidableEq α]
    {l : List (α × β)} {k : α} {v : β} (h : lookupAssoc l k = some v) :
    (k, v) ∈ l := by
  induction l with
  | nil => simp [lookupAssoc] at h
  | cons hd tl ih =>
      obtain ⟨k2, w⟩ := hd
      by_cases h2 : k2 = k
      · subst h2
        simp [lookupAssoc] at h
        simp [h]
      · simp [lookupAssoc, h2] at h
        exact List.mem_cons_of_mem _ (ih h)

/-- Rounding of a rational to the nearest integer, ties to even, modelling
Python round() on an exactly representable value. -/
def roundHalfEven (q : ℚ) : ℤ :=
  let f : ℤ := ⌊q⌋
  let r : ℚ := q - f
  if r < 1/2 then f
  else if 1/2 < r then f + 1
  else if f % 2 = 0 then f else f + 1

/-- Python round(q, n) over the rationals. -/
def pyRound (q : ℚ) (n : ℕ) : ℚ :=
  (roundHalfEven (q * 10 ^ n) : ℚ) / 10 ^ n

theorem roundHalfEven_intCast (m : ℤ) : roundHalfEven (m : ℚ) = m := by
  unfold roundHalfEven
  norm_num

/-- round(q, n) is the identity whenever q has at most n decimal places. -/
theorem pyRound_exact {q : ℚ} {n : ℕ} (m : ℤ) (h : q * 10 ^ n = m) :
    pyRound q n = q := by
  unfold pyRound
  rw [h, roundHalfEven_intCast, ← h]
  have hpow : ((10 : ℚ) ^ n) ≠ 0 := by positivity
  field_simp

section CanBus

/-- One entry of the per-frame signal table of can_decoder.py
(start_bit, length, factor, offset, unit). -/
structure CanSignal where
  start_bit : ℕ
  length : ℕ
  factor : ℚ
  offset : ℚ
  unit : String
deriving DecidableEq

/-- One frame of the signal database: name and ordered signal dict. -/
structure CanFrameDef where
  name : String
  signals : List (String × CanSignal)
deriving DecidableEq

/-- One value of the dict returned by CANDecoder.decode_frame: either the
"_frame_name" string or a decoded signal record with value, unit and raw. -/
inductive DecodedEntry where
  | frameName (nm : String)
  | signal (value : ℚ) (unit : String) (raw : ℕ)
deriving DecidableEq

/-- The STANDARD_CAN_SIGNALS table of can_decoder.py. -/
def STANDARD_CAN_SIGNALS : List (ℕ × CanFrameDef) := [
  (0x0C0, { name := "Engine_Data_1", signals := [
    ("engine_rpm", { start_bit := 0, length := 16, factor := 0.25, offset := 0, unit := "rpm" }),
    ("engine_torque", { start_bit := 16, length := 16, factor := 0.1, offset := -500, unit := "Nm" })] }),
  (0x0C1, { name := "Engine_Data_2", signals := [
    ("coolant_temp", { start_bit := 0, length := 8, factor := 1, offset := -40, unit := "°C" }),
    ("oil_pressure", { start_bit := 8, length := 8, factor := 4, offset := 0, unit := "kPa" }),
    ("oil_temp", { start_bit := 16, length := 8, factor := 1, offset := -40, unit := "°C" })] }),
  (0x0D0, { name := "Vehicle_Speed", signals := [
    ("vehicle_speed", { start_bit := 0, length := 16, factor := 0.01, offset := 0, unit := "km/h" }),
    ("wheel_speed_fl", { start_bit := 16, length := 16, factor := 0.01, offset := 0, unit := "km/h" }),
    ("wheel_speed_fr", { start_bit := 32, length := 16, factor := 0.01, offset := 0, unit := "km/h" })] }),
  (0x0D1, { name := "Brake_Data", signals := [
    ("brake_pressure", { start_bit := 0, length := 16, factor := 0.1, offset := 0, unit := "bar" }),
    ("brake_pedal", { start_bit := 16, length := 8, factor := 0.4, offset := 0, unit := "%" }),
    ("abs_active", { start_bit := 24, length := 1, factor := 1, offset := 0, unit := "bool" })] }),
  (0x0E0, { name := "Transmission_Data", signals := [
    ("gear_position", { start_bit := 0, length := 4, factor := 1, offset := 0, unit := "" }),
    ("trans_temp", { start_bit := 8, length := 8, factor := 1, offset := -40, unit := "°C" })] }),
  (0x3B0, { name := "Fuel_Data", signals := [
    ("fuel_level", { start_bit := 0, length := 8, factor := 0.5, offset := 0, unit := "%" }),
    ("fuel_rate", { start_bit := 8, length := 16, factor := 0.05, offset := 0, unit := "L/h" })] }),
  (0x3C0, { name := "Battery_Data", signals := [
    ("battery_voltage", { start_bit := 0, length := 16, factor := 0.001, offset := 0, unit := "V" }),
    ("alternator_load", { start_bit := 16, length := 8, factor := 1, offset := 0, unit := "%" })] })]

/-- Python int.from_bytes(data, byteorder="little"): bytes are the
little-endian digits of the integer in base 256. -/
def fromBytesLE (data : List ℕ) : ℕ :=
  data.foldr (fun b acc => acc * 256 + b) 0

/-- CANDecoder._extract_signal: shift the little-endian frame integer right
by start_bit and mask to the signal's bit length.  In Python this never
raises for the nonnegative bit positions of the table, so the per-signal
try/except of decode_frame has no effect on it. -/
def extractSignal (data : List ℕ) (start_bit len : ℕ) : ℕ :=
  (fromBytesLE data >>> start_bit) &&& ((1 <<< len) - 1)

/-- CANDecoder.decode_frame: unknown arbitration ids give an empty dict;
known ones give the frame name plus one record per signal of the table,
with value = round(raw * factor + offset, 3). -/
def decodeFrame (signal_db : List (ℕ × CanFrameDef)) (arbitration_id : ℕ)
    (data : List ℕ) : List (String × DecodedEntry) :=
  match lookupAssoc signal_db arbitration_id with
  | none => []
  | some frame_def =>
      frame_def.signals.foldl
        (fun result sig =>
          let raw_value := extractSignal data sig.2.start_bit sig.2.length
          let physical_value : ℚ := (raw_value : ℚ) * sig.2.factor + sig.2.offset
          dictInsert result sig.1
            (DecodedEntry.signal (pyRound physical_value 3) sig.2.unit raw_value))
        (dictInsert [] "_frame_name" (DecodedEntry.frameName frame_def.name))

theorem lookupAssoc_foldl_insert_not_mem {α β γ : Type} [DecidableEq α]
    (kf : γ → α) (vf : γ → β) (l : List γ) (acc : List (α × β)) (key : α)
    (h : key ∉ l.map kf) :
    lookupAssoc (l.foldl (fun a c => dictInsert a (kf c) (vf c)) acc) key =
      lookupAssoc acc key := by
  induction l generalizing acc with
  | nil => rfl
  | cons c rest ih =>
      simp only [List.map_cons, List.mem_cons] at h
      push_neg at h
      rw [List.foldl_cons, ih _ h.2, lookupAssoc_dictInsert_ne _ _ _ _ h.1]

theorem lookupAssoc_foldl_insert_isSome {α β γ : Type} [DecidableEq α]
    (kf : γ → α) (vf : γ → β) (l : List γ) (acc : List (α × β)) (key : α)
    (h : key ∈ l.map kf ∨ (lookupAssoc acc key).isSome) :
    (lookupAssoc (l.foldl (fun a c => dictInsert a (kf c) (vf c)) acc) key).isSome := by
  induction l generalizing acc with
  | nil =>
      rcases h with h | h
      · simp at h
      · exact h
  | cons c rest ih =>
      rw [List.foldl_cons]
      rcases h with h | h
      · simp only [List.map_cons, List.mem_cons] at h
        by_cases hk : key ∈ rest.map kf
        · exact ih _ (Or.inl hk)
        · rcases h with h | h
          · exact ih _ (Or.inr (lookupAssoc_dictInsert_isSome _ _ _ _ (Or.inr h)))
          · exact absurd h hk
      · exact ih _ (Or.inr (lookupAssoc_dictInsert_isSome _ _ _ _ (Or.inl h)))

theorem lookupAssoc_foldl_insert_nodup {α β γ : Type} [DecidableEq α]
    (kf : γ → α) (vf : γ → β) (l : List γ) (acc : List (α × β)) (key : α) (c : γ)
    (hnd : (l.map kf).Nodup) (hc : c ∈ l) (hk : kf c = key) :
    lookupAssoc (l.foldl (fun a c => dictInsert a (kf c) (vf c)) acc) key =
      some (vf c) := by
  induction l generalizing acc with
  | nil => simp at hc
  | cons c0 rest ih =>
      simp only [List.map_cons, List.nodup_cons] at hnd
      rw [List.foldl_cons]
      rcases List.mem_cons.mp hc with h | h
      · subst h
        have hnotin : key ∉ rest.map kf := hk ▸ hnd.1
        rw [lookupAssoc_foldl_insert_not_mem _ _ _ _ _ hnotin, ← hk,
          lookupAssoc_dictInsert_self]
      · exact ih _ hnd.2 h

theorem catalog_keys_nodup :
    ∀ p ∈ STANDARD_CAN_SIGNALS, (p.2.signals.map Prod.fst).Nodup := by decide

theorem catalog_no_frame_name_key :
    ∀ p ∈ STANDARD_CAN_SIGNALS, "_frame_name" ∉ p.2.signals.map Prod.fst := by decide

theorem pyRound3_mul_add_exact (f o : ℚ) (a b : ℤ) (hf : f * 1000 = a) (ho : o * 1000 = b)
    (r : ℕ) : pyRound ((r : ℚ) * f + o) 3 = (r : ℚ) * f + o := by
  apply pyRound_exact (r * a + b)
  have h : ((r : ℚ) * f + o) * 10 ^ 3 = (r : ℚ) * (f * 1000) + o * 1000 := by ring
  rw [h, hf, ho]
  push_cast
  ring

/-- Every factor/offset pair of the standard catalog produces physical
values with at most three decimal places, so round(·, 3) is exact. -/
theorem catalog_pyRound_exact :
    ∀ p ∈ STANDARD_CAN_SIGNALS, ∀ s ∈ p.2.signals, ∀ r : ℕ,
      pyRound ((r : ℚ) * s.2.factor + s.2.offset) 3 = (r : ℚ) * s.2.factor + s.2.offset := by
  intro p hp
  simp only [STANDARD_CAN_SIGNALS] at hp
  fin_cases hp <;> intro s hs <;> fin_cases hs
  · exact pyRound3_mul_add_exact 0.25 0 250 0 (by norm_num) (by norm_num)
  · exact pyRound3_mul_add_exact 0.1 (-500) 100 (-500000) (by norm_num) (by norm_num)
  · exact pyRound3_mul_add_exact 1 (-40) 1000 (-40000) (by norm_num) (by norm_num)
  · exact pyRound3_mul_add_exact 4 0 4000 0 (by norm_num) (by norm_num)
  · exact pyRound3_mul_add_exact 1 (-40) 1000 (-40000) (by norm_num) (by norm_num)
  · exact pyRound3_mul_add_exact 0.01 0 10 0 (by norm_num) (by norm_num)
  · exact pyRound3_mul_add_exact 0.01 0 10 0 (by norm_num) (by norm_num)
  · exact pyRound3_mul_add_exact 0.01 0 10 0 (by norm_num) (by norm_num)
  · exact pyRound3_mul_add_exact 0.1 0 100 0 (by norm_num) (by norm_num)
  · exact pyRound3_mul_add_exact 0.4 0 400 0 (by norm_num) (by norm_num)
  · exact pyRound3_mul_add_exact 1 0 1000 0 (by norm_num) (by norm_num)
  · exact pyRound3_mul_add_exact 1 0 1000 0 (by norm_num) (by norm_num)
  · exact pyRound3_mul_add_exact 1 (-40) 1000 (-40000) (by norm_num) (by norm_num)
  · exact pyRound3_mul_add_exact 0.5 0 500 0 (by norm_num) (by norm_num)
  · exact pyRound3_mul_add_exact 0.05 0 50 0 (by norm_num) (by norm_num)
  · exact pyRound3_mul_add_exact 0.001 0 1 0 (by norm_num) (by norm_num)
  · exact pyRound3_mul_add_exact 1 0 1000 0 (by norm_num) (by norm_num)

theorem fromBytesLE_lt (data : List ℕ) (h : ∀ b ∈ data, b < 256) :
    fromBytesLE data < 256 ^ data.length := by
  induction data with
  | nil => simp [fromBytesLE]
  | cons b rest ih =>
      have hb : b < 256 := h b (List.mem_cons_self ..)
      have hr : fromBytesLE rest < 256 ^ rest.length :=
        ih (fun x hx => h x (List.mem_cons_of_mem _ hx))
      show fromBytesLE rest * 256 + b < 256 ^ (rest.length + 1)
      have h1 : fromBytesLE rest * 256 + b < (fromBytesLE rest + 1) * 256 := by omega
      have h2 : (fromBytesLE rest + 1) * 256 ≤ 256 ^ rest.length * 256 :=
        Nat.mul_le_mul_right _ hr
      rw [pow_succ]
      omega

/-- A bit range lying wholly beyond the frame's bit width extracts zero:
the shift empties the little-endian integer before the mask applies. -/
theorem extractSignal_out_of_range (data : List ℕ) (sb len : ℕ)
    (hdata : ∀ b ∈ data, b < 256) (hsb : 8 * data.length ≤ sb) :
    extractSignal data sb len = 0 := by
  unfold extractSignal
  have h1 : fromBytesLE data < 2 ^ sb := by
    calc fromBytesLE data < 256 ^ data.length := fromBytesLE_lt data hdata
    _ = 2 ^ (8 * data.length) := by rw [pow_mul]; norm_num
    _ ≤ 2 ^ sb := Nat.pow_le_pow_right (by norm_num) hsb
  rw [Nat.shiftRight_eq_div_pow, Nat.div_eq_of_lt h1, Nat.zero_and]

/-- The value stored by decode_frame for one signal of the frame. -/
def decodedSignalEntry (data : List ℕ) (sig : String × CanSignal) : DecodedEntry :=
  DecodedEntry.signal
    (pyRound ((extractSignal data sig.2.start_bit sig.2.length : ℚ) * sig.2.factor
      + sig.2.offset) 3)
    sig.2.unit
    (extractSignal data sig.2.start_bit sig.2.length)

theorem decodeFrame_known (arb : ℕ) (fd : CanFrameDef) (data : List ℕ)
    (hdb : lookupAssoc STANDARD_CAN_SIGNALS arb = some fd) :
    decodeFrame STANDARD_CAN_SIGNALS arb data =
      fd.signals.foldl (fun a c => dictInsert a c.1 (decodedSignalEntry data c))
        (dictInsert [] "_frame_name" (DecodedEntry.frameName fd.name)) := by
  unfold decodeFrame
  rw [hdb]
  rfl

/-- C6: for every arbitration id of the catalog and any data bytes, the
frame is read as one little-endian integer and every signal of the frame
is reported with raw equal to the shifted-and-masked bit field and value
equal to raw times factor plus offset (round(·, 3) is exact on every
factor/offset of the catalog). -/
theorem decode_frame_signal_extraction
    (arb : ℕ) (fd : CanFrameDef) (data : List ℕ) (nm : String) (sd : CanSignal)
    (hdb : lookupAssoc STANDARD_CAN_SIGNALS arb = some fd)
    (hs : (nm, sd) ∈ fd.signals) :
    lookupAssoc (decodeFrame STANDARD_CAN_SIGNALS arb data) nm =
      some (DecodedEntry.signal
        ((((fromBytesLE data >>> sd.start_bit) &&& ((1 <<< sd.length) - 1) : ℕ) : ℚ)
          * sd.factor + sd.offset)
        sd.unit
        ((fromBytesLE data >>> sd.start_bit) &&& ((1 <<< sd.length) - 1))) := by
  have hmem := mem_of_lookupAssoc hdb
  have hnodup := catalog_keys_nodup _ hmem
  have hexact := catalog_pyRound_exact _ hmem _ hs
  rw [decodeFrame_known arb fd data hdb]
  have h2 := lookupAssoc_foldl_insert_nodup Prod.fst (decodedSignalEntry data)
    fd.signals (dictInsert [] "_frame_name" (DecodedEntry.frameName fd.name))
    nm (nm, sd) hnodup hs rfl
  rw [h2]
  unfold decodedSignalEntry
  rw [hexact]
  rfl

theorem decode_frame_signal_extraction_witness :
    lookupAssoc (decodeFrame STANDARD_CAN_SIGNALS 0x0C1 [0xFF, 0x00]) "coolant_temp" =
      some (DecodedEntry.signal (((255 : ℕ) : ℚ) * 1 + -40) "°C" 255) := by
  exact decode_frame_signal_extraction 0x0C1
    { name := "Engine_Data_2", signals := [
      ("coolant_temp", { start_bit := 0, length := 8, factor := 1, offset := -40, unit := "°C" }),
      ("oil_pressure", { start_bit := 8, length := 8, factor := 4, offset := 0, unit := "kPa" }),
      ("oil_temp", { start_bit := 16, length := 8, factor := 1, offset := -40, unit := "°C" })] }
    [0xFF, 0x00] "coolant_temp"
    { start_bit := 0, length := 8, factor := 1, offset := -40, unit := "°C" }
    rfl (List.Mem.head _)

/-- C3 counterexample: arbitration id 0x0D0 with a 2-byte frame.  The
signal wheel_speed_fl occupies bits 16..31, beyond the 16-bit frame
width, yet decode_frame does not omit it: Python's shift and mask never
raise, the bits beyond the data simply read as zero, so the per-signal
try/except is never triggered and the signal is reported with raw 0. -/
theorem decode_frame_out_of_range_signal_present :
    16 + 16 > 8 * 2 ∧
    extractSignal [16, 39] 16 16 = 0 ∧
    lookupAssoc (decodeFrame STANDARD_CAN_SIGNALS 0x0D0 [16, 39]) "wheel_speed_fl" =
      some (DecodedEntry.signal (pyRound (((0 : ℕ) : ℚ) * 0.01 + 0) 3) "km/h" 0) :=
  ⟨by norm_num, rfl, rfl⟩

/-- C3 (amended): a signal whose bit range exceeds the frame's bit width is
NOT omitted from the decode_frame result; it is decoded like any other
signal, with the bits beyond the data width reading as zero.  Decoding
never fails the whole frame. -/
theorem decode_frame_out_of_range_zero_filled
    (signal_db : List (ℕ × CanFrameDef)) (arb : ℕ) (fd : CanFrameDef) (data : List ℕ)
    (nm : String) (sd : CanSignal)
    (hdb : lookupAssoc signal_db arb = some fd) (hs : (nm, sd) ∈ fd.signals) :
    (lookupAssoc (decodeFrame signal_db arb data) nm).isSome ∧
      ((∀ b ∈ data, b < 256) → 8 * data.length ≤ sd.start_bit →
        extractSignal data sd.start_bit sd.length = 0) := by
  constructor
  · have hgoal :
        (lookupAssoc (fd.signals.foldl
          (fun a c => dictInsert a c.1 (decodedSignalEntry data c))
          (dictInsert [] "_frame_name" (DecodedEntry.frameName fd.name))) nm).isSome :=
      lookupAssoc_foldl_insert_isSome Prod.fst (decodedSignalEntry data)
        fd.signals _ nm (Or.inl (List.mem_map_of_mem _ hs))
    unfold decodeFrame
    rw [hdb]
    exact hgoal
  · intro h1 h2
    exact extractSignal_out_of_range data _ _ h1 h2

theorem decode_frame_out_of_range_zero_filled_witness :
    (lookupAssoc (decodeFrame STANDARD_CAN_SIGNALS 0x0D0 [16, 39]) "wheel_speed_fl").isSome ∧
      extractSignal [16, 39] 16 16 = 0 := by
  have h := decode_frame_out_of_range_zero_filled STANDARD_CAN_SIGNALS 0x0D0
    { name := "Vehicle_Speed", signals := [
      ("vehicle_speed", { start_bit := 0, length := 16, factor := 0.01, offset := 0, unit := "km/h" }),
      ("wheel_speed_fl", { start_bit := 16, length := 16, factor := 0.01, offset := 0, unit := "km/h" }),
      ("wheel_speed_fr", { start_bit := 32, length := 16, factor := 0.01, offset := 0, unit := "km/h" })] }
    [16, 39] "wheel_speed_fl"
    { start_bit := 16, length := 16, factor := 0.01, offset := 0, unit := "km/h" }
    rfl (List.Mem.tail _ (List.Mem.head _))
  exact ⟨h.1, h.2 (by decide) (by decide)⟩

/-- C10: for a known arbitration id the decode_frame result always binds
"_frame_name" to the frame's name — an entry that is not a signal record —
so the result is never empty; an unknown arbitration id gives the empty
dict. -/
theorem decode_frame_frame_name_entry (arb : ℕ) (data : List ℕ) :
    (∀ fd : CanFrameDef, lookupAssoc STANDARD_CAN_SIGNALS arb = some fd →
      lookupAssoc (decodeFrame STANDARD_CAN_SIGNALS arb data) "_frame_name" =
        some (DecodedEntry.frameName fd.name) ∧
      decodeFrame STANDARD_CAN_SIGNALS arb data ≠ [] ∧
      ∀ v u r, DecodedEntry.frameName fd.name ≠ DecodedEntry.signal v u r) ∧
    (lookupAssoc STANDARD_CAN_SIGNALS arb = none →
      decodeFrame STANDARD_CAN_SIGNALS arb data = []) := by
  constructor
  · intro fd hdb
    have hmem := mem_of_lookupAssoc hdb
    have hnot := catalog_no_frame_name_key _ hmem
    have hlook : lookupAssoc (decodeFrame STANDARD_CAN_SIGNALS arb data) "_frame_name" =
        some (DecodedEntry.frameName fd.name) := by
      rw [decodeFrame_known arb fd data hdb]
      rw [lookupAssoc_foldl_insert_not_mem Prod.fst (decodedSignalEntry data)
        fd.signals _ "_frame_name" hnot]
      exact lookupAssoc_dictInsert_self ..
    refine ⟨hlook, ?_, ?_⟩
    · intro hempty
      rw [hempty] at hlook
      exact Option.noConfusion hlook
    · intro v u r h
      exact DecodedEntry.noConfusion h
  · intro hnone
    unfold decodeFrame
    rw [hnone]

theorem decode_frame_frame_name_entry_witness :
    lookupAssoc (decodeFrame STANDARD_CAN_SIGNALS 0x0C0 []) "_frame_name" =
      some (DecodedEntry.frameName "Engine_Data_1") ∧
    decodeFrame STANDARD_CAN_SIGNALS 0x0C0 [] ≠ [] ∧
    decodeFrame STANDARD_CAN_SIGNALS 0x999 [] = [] := by
  have h := (decode_frame_frame_name_entry 0x0C0 []).1 _ rfl
  have h2 := (decode_frame_frame_name_entry 0x999 []).2 rfl
  exact ⟨h.1, h.2.1, h2⟩

end CanBus

section Dtc

/-- One row of the DTC_DATABASE table of dtc_analyzer.py. -/
structure DtcInfo where
  desc : String
  severity : String
  system : String
deriving DecidableEq

/-- The DTC_DATABASE table of dtc_analyzer.py. -/
def DTC_DATABASE : List (String × DtcInfo) := [
  ("P0100", { desc := "Mass Air Flow (MAF) Circuit Malfunction", severity := "high", system := "fuel" }),
  ("P0101", { desc := "MAF Sensor Range/Performance", severity := "medium", system := "fuel" }),
  ("P0102", { desc := "MAF Sensor Circuit Low Input", severity := "medium", system := "fuel" }),
  ("P0110", { desc := "Intake Air Temperature Sensor Malfunction", severity := "medium", system := "fuel" }),
  ("P0120", { desc := "Throttle Position Sensor Malfunction", severity := "high", system := "fuel" }),
  ("P0130", { desc := "O2 Sensor Circuit Malfunction (Bank 1)", severity := "medium", system := "emissions" }),
  ("P0171", { desc := "System Too Lean (Bank 1)", severity := "medium", system := "fuel" }),
  ("P0172", { desc := "System Too Rich (Bank 1)", severity := "medium", system := "fuel" }),
  ("P0300", { desc := "Random/Multiple Cylinder Misfire Detected", severity := "high", system := "ignition" }),
  ("P0301", { desc := "Cylinder 1 Misfire Detected", severity := "high", system := "ignition" }),
  ("P0302", { desc := "Cylinder 2 Misfire Detected", severity := "high", system := "ignition" }),
  ("P0303", { desc := "Cylinder 3 Misfire Detected", severity := "high", system := "ignition" }),
  ("P0304", { desc := "Cylinder 4 Misfire Detected", severity := "high", system := "ignition" }),
  ("P0335", { desc := "Crankshaft Position Sensor Malfunction", severity := "critical", system := "ignition" }),
  ("P0340", { desc := "Camshaft Position Sensor Malfunction", severity := "critical", system := "ignition" }),
  ("P0400", { desc := "EGR Flow Malfunction", severity := "medium", system := "emissions" }),
  ("P0420", { desc := "Catalyst Efficiency Below Threshold (Bank 1)", severity := "medium", system := "emissions" }),
  ("P0440", { desc := "EVAP System Malfunction", severity := "low", system := "emissions" }),
  ("P0442", { desc := "EVAP System Small Leak Detected", severity := "low", system := "emissions" }),
  ("P0455", { desc := "EVAP System Large Leak Detected", severity := "medium", system := "emissions" }),
  ("P0500", { desc := "Vehicle Speed Sensor Malfunction", severity := "high", system := "drivetrain" }),
  ("P0505", { desc := "Idle Air Control System Malfunction", severity := "medium", system := "fuel" }),
  ("P0700", { desc := "Transmission Control System Malfunction", severity := "high", system := "transmission" }),
  ("P0715", { desc := "Input/Turbine Speed Sensor Malfunction", severity := "high", system := "transmission" }),
  ("P0730", { desc := "Incorrect Gear Ratio", severity := "high", system := "transmission" }),
  ("P0115", { desc := "Engine Coolant Temperature Sensor Malfunction", severity := "high", system := "cooling" }),
  ("P0116", { desc := "Coolant Temp Sensor Range/Performance", severity := "medium", system := "cooling" }),
  ("P0117", { desc := "Coolant Temp Sensor Circuit Low", severity := "medium", system := "cooling" }),
  ("P0125", { desc := "Insufficient Coolant Temperature for Fuel Control", severity := "medium", system := "cooling" }),
  ("P0128", { desc := "Coolant Thermostat Below Operating Temperature", severity := "low", system := "cooling" }),
  ("C0035", { desc := "Left Front Wheel Speed Sensor Circuit", severity := "high", system := "abs" }),
  ("C0040", { desc := "Right Front Wheel Speed Sensor Circuit", severity := "high", system := "abs" }),
  ("C0050", { desc := "Steering Assist Control Module", severity := "critical", system := "steering" }),
  ("B0001", { desc := "Driver Frontal Stage 1 Deployment Control", severity := "critical", system := "airbag" }),
  ("B0028", { desc := "Airbag Warning Lamp Circuit", severity := "high", system := "airbag" }),
  ("B0100", { desc := "Electronic Frontal Sensor 1", severity := "critical", system := "airbag" }),
  ("U0001", { desc := "High Speed CAN Communication Bus", severity := "high", system := "network" }),
  ("U0100", { desc := "Lost Communication with ECM/PCM", severity := "critical", system := "network" }),
  ("U0121", { desc := "Lost Communication with ABS", severity := "critical", system := "network" }),
  ("U0140", { desc := "Lost Communication with BCM", severity := "high", system := "network" })]

/-- The SEVERITY_PRIORITY dict of dtc_analyzer.py. -/
def SEVERITY_PRIORITY : List (String × ℕ) :=
  [("critical", 4), ("high", 3), ("medium", 2), ("low", 1)]

/-- The RECOMMENDED_ACTIONS dict of dtc_analyzer.py. -/
def RECOMMENDED_ACTIONS : List (String × String) := [
  ("critical", "⛔ STOP VEHICLE IMMEDIATELY. Do not drive. Tow to nearest service center."),
  ("high", "⚠️ Schedule service ASAP. Avoid long trips until repaired."),
  ("medium", "🔧 Service recommended within 1-2 weeks. Monitor closely."),
  ("low", "ℹ️ Minor issue. Schedule during next routine service.")]

/-- The system_map of DTCAnalyzer._decode_unknown, with the dict .get
default "unknown" folded in. -/
def systemMap (c : Char) : String :=
  if c = 'P' then "powertrain" else if c = 'C' then "chassis"
  else if c = 'B' then "body" else if c = 'U' then "network" else "unknown"

/-- The subsystem_map of DTCAnalyzer._decode_unknown, with the dict .get
default "" folded in. -/
def subsystemMap (c : Char) : String :=
  if c = '0' ∨ c = '1' ∨ c = '2' then "fuel_and_air"
  else if c = '3' then "ignition" else if c = '4' then "emissions"
  else if c = '5' then "speed_idle" else if c = '6' then "computer"
  else if c = '7' ∨ c = '8' then "transmission" else ""

/-- Result of DTCAnalyzer._decode_unknown. -/
structure UnknownDecode where
  description : String
  system : String
deriving DecidableEq

/-- DTCAnalyzer._decode_unknown: structural decode of a code absent from
the table.  'subsystem or system' keeps the subsystem only when it is a
non-empty string (Python falsiness of ""). -/
def decodeUnknown (code : String) : UnknownDecode :=
  let cs := code.toList
  let system := match cs with
    | [] => "unknown"
    | c :: _ => systemMap c
  let subsystem :=
    if cs.length ≥ 3 ∧ cs.headD ' ' = 'P' then subsystemMap (cs.getD 2 ' ') else ""
  { description := "Unknown " ++ system ++ " code (manufacturer-specific)"
  , system := if subsystem = "" then system else subsystem }

/-- One element of the per-code list built by DTCAnalyzer.analyze. -/
structure AnalyzedCode where
  code : String
  description : String
  severity : String
  system : String
  action : String
deriving DecidableEq

/-- The dict returned by DTCAnalyzer.analyze. -/
structure DiagnosisReport where
  total_codes : ℕ
  max_severity : String
  overall_action : String
  safe_to_drive : Bool
  codes : List AnalyzedCode
  affected_systems : List String
deriving DecidableEq

/-- severity_names.get(level, "low") of DTCAnalyzer.analyze: the inverse
of SEVERITY_PRIORITY with default "low" (hit when the level is 0). -/
def severityName (level : ℕ) : String :=
  if level = 4 then "critical" else if level = 3 then "high"
  else if level = 2 then "medium" else if level = 1 then "low" else "low"

/-- Python set.add on the insertion-ordered model of a set. -/
def insertSet (s : List String) (x : String) : List String :=
  if x ∈ s then s else s ++ [x]

/-- Python str.upper() for the ASCII code strings handled here. -/
def pyUpper (s : String) : String := ⟨s.data.map Char.toUpper⟩

/-- Python str.strip(): drop leading and trailing whitespace. -/
def pyStrip (s : String) : String :=
  ⟨((s.data.dropWhile Char.isWhitespace).reverse.dropWhile Char.isWhitespace).reverse⟩

/-- Python sorted() on strings, as a stable insertion sort. -/
def insertSorted (x : String) : List String → List String
  | [] => [x]
  | y :: rest => if x ≤ y then x :: y :: rest else y :: insertSorted x rest

def sortStrings (l : List String) : List String := l.foldr insertSorted []

/-- The loop body of DTCAnalyzer.analyze: state is (analyzed list,
max_severity_level, affected_systems).  Only the known-code branch raises
max_severity_level; the unknown-code branch records severity "medium" in
the per-code entry but leaves the running maximum untouched, exactly as
in the source. -/
def analyzeStep (dtc_db : List (String × DtcInfo))
    (st : List AnalyzedCode × ℕ × List String) (code0 : String) :
    List AnalyzedCode × ℕ × List String :=
  let code := pyStrip (pyUpper code0)
  match lookupAssoc dtc_db code with
  | some info =>
      (st.1 ++ [{ code := code, description := info.desc, severity := info.severity,
                  system := info.system,
                  action := (lookupAssoc RECOMMENDED_ACTIONS info.severity).getD "" }],
       max st.2.1 ((lookupAssoc SEVERITY_PRIORITY info.severity).getD 0),
       insertSet st.2.2 info.system)
  | none =>
      let decoded := decodeUnknown code
      (st.1 ++ [{ code := code, description := decoded.description, severity := "medium",
                  system := decoded.system,
                  action := (lookupAssoc RECOMMENDED_ACTIONS "medium").getD "" }],
       st.2.1,
       insertSet st.2.2 decoded.system)

/-- DTCAnalyzer.analyze.  The dict accesses RECOMMENDED_ACTIONS[s] and
SEVERITY_PRIORITY[s] are modelled with a default that is never reached
for the severities of the static table. -/
def analyze (dtc_db : List (String × DtcInfo)) (dtc_codes : List String) :
    DiagnosisReport :=
  if dtc_codes = [] then
    { total_codes := 0, max_severity := "none",
      overall_action := "No faults detected. Vehicle systems normal.",
      safe_to_drive := true, codes := [], affected_systems := [] }
  else
    let res := dtc_codes.foldl (analyzeStep dtc_db) ([], 0, [])
    let max_severity := severityName res.2.1
    { total_codes := dtc_codes.length
    , max_severity := max_severity
    , overall_action := (lookupAssoc RECOMMENDED_ACTIONS max_severity).getD "Monitor vehicle."
    , safe_to_drive := decide (res.2.1 < 4)
    , codes := res.1
    , affected_systems := sortStrings res.2.2 }

/-- C4 (code bug): a non-empty list of only unknown codes.  Each unknown
code is recorded with severity "medium" (decoded structurally from its
first and third characters), but the unknown branch of analyze never
updates max_severity_level, so the report's max_severity is "low" — lower
than the severity of every code it aggregates — instead of "medium" as
the spec's total-order maximum requires. -/
theorem analyze_unknown_codes_bug :
    (analyze DTC_DATABASE ["P1234"]).codes.map (fun c => c.severity) = ["medium"] ∧
    (analyze DTC_DATABASE ["P1234"]).codes.map (fun c => c.system) = ["fuel_and_air"] ∧
    (analyze DTC_DATABASE ["P1234"]).max_severity = "low" ∧
    ¬ (analyze DTC_DATABASE ["P1234"]).max_severity = "medium" := by
  refine ⟨?_, ?_, ?_, ?_⟩ <;> decide

end Dtc

section Alerts

/-- Modelled from the spec: the alert_type enum of models/alert.py (the
models file itself is not among the embedded sources); only the members
AlertEngine uses are needed. -/
inductive AlertType where
  | speeding
  | engine_overheat
  | low_fuel
  | low_battery
  | harsh_braking
  | harsh_acceleration
  | dtc_detected
  | geofence_violation
deriving DecidableEq

/-- Modelled from the spec: the alert severity enum, info, warning and
critical. -/
inductive AlertSeverity where
  | info
  | warning
  | critical
deriving DecidableEq

/-- The threshold fields of AlertSettings (config/settings.py) read by
AlertEngine, with their defaults. -/
structure AlertSettings where
  SPEED_LIMIT_WARNING : ℚ := 120
  SPEED_LIMIT_CRITICAL : ℚ := 150
  ENGINE_TEMP_WARNING : ℚ := 100
  ENGINE_TEMP_CRITICAL : ℚ := 115
  RPM_CRITICAL : ℚ := 6500
  HARSH_BRAKE_THRESHOLD : ℚ := -8
  HARSH_ACCEL_THRESHOLD : ℚ := 5
  FUEL_LOW_WARNING : ℚ := 15
  FUEL_LOW_CRITICAL : ℚ := 5

/-- The telemetry dict fields read by AlertEngine.evaluate; an absent
dict key is none (an absent dtc_codes key behaves like the empty list,
both being falsy).  DTC entries are taken as plain code strings, the
form the telemetry layer produces. -/
structure Telemetry where
  vehicle_speed : Option ℚ := none
  gps_speed : Option ℚ := none
  coolant_temp : Option ℚ := none
  engine_rpm : Option ℚ := none
  fuel_level : Option ℚ := none
  battery_voltage : Option ℚ := none
  acceleration_y : Option ℚ := none
  dtc_codes : List String := []
  latitude : Option ℚ := none
  longitude : Option ℚ := none

/-- The alert dict built by AlertEngine._create_alert.  The formatted
message text is not modelled; details (which carries the DTC code for
DTC alerts) is.  created_at is the utcnow timestamp in seconds. -/
structure Alert where
  vehicle_id : ℤ
  alert_type : AlertType
  severity : AlertSeverity
  details : Option String
  latitude : Option ℚ
  longitude : Option ℚ
  trigger_value : Option ℚ
  threshold_value : Option ℚ
  created_at : ℚ
deriving DecidableEq

/-- The cooldown key f"{vehicle_id}_{alert_type.value}_{severity.value}"
of _create_alert, modelled as the triple itself: the string format is
injective on it because the vehicle id is an integer and the severity
values contain no underscore. -/
abbrev CooldownKey := ℤ × AlertType × AlertSeverity

/-- The _alert_cooldowns dict: cooldown key to last-fired timestamp. -/
abbrev CooldownStore := List (CooldownKey × ℚ)

/-- The cooldown test of _create_alert: the key is suppressed when it
fired and the elapsed time is below cooldown_seconds. -/
def cooldownSuppressed (cooldown_seconds : ℚ) (store : CooldownStore) (now : ℚ)
    (key : CooldownKey) : Bool :=
  match lookupAssoc store key with
  | some last => decide (now - last < cooldown_seconds)
  | none => false

/-- AlertEngine._create_alert: return none and leave the store untouched
while the key is in cooldown; otherwise write now into the store for the
key and return the alert. -/
def createAlert (cooldown_seconds : ℚ) (store : CooldownStore) (now : ℚ)
    (vehicle_id : ℤ) (alert_type : AlertType) (severity : AlertSeverity)
    (lat lon trigger_value threshold_value : Option ℚ) (details : Option String) :
    Option Alert × CooldownStore :=
  if cooldownSuppressed cooldown_seconds store now (vehicle_id, alert_type, severity) then
    (none, store)
  else
    (some { vehicle_id := vehicle_id, alert_type := alert_type, severity := severity,
            details := details, latitude := lat, longitude := lon,
            trigger_value := trigger_value, threshold_value := threshold_value,
            created_at := now },
     dictInsert store (vehicle_id, alert_type, severity) now)

/-- The 'if alert: alerts.append(alert)' pattern of every check. -/
def alertList : Option Alert → List Alert
  | some a => [a]
  | none => []

/-- AlertEngine._check_speed: critical supersedes warning through the
if/elif chain; the warning branch is only reached below the critical
threshold. -/
def checkSpeed (th : AlertSettings) (cd : ℚ) (store : CooldownStore) (now : ℚ)
    (vehicle_id : ℤ) (speed : ℚ) (t : Telemetry) : List Alert × CooldownStore :=
  if speed ≥ th.SPEED_LIMIT_CRITICAL then
    let r := createAlert cd store now vehicle_id .speeding .critical
      t.latitude t.longitude (some speed) (some th.SPEED_LIMIT_CRITICAL) none
    (alertList r.1, r.2)
  else if speed ≥ th.SPEED_LIMIT_WARNING then
    let r := createAlert cd store now vehicle_id .speeding .warning
      t.latitude t.longitude (some speed) (some th.SPEED_LIMIT_WARNING) none
    (alertList r.1, r.2)
  else ([], store)

/-- AlertEngine._check_engine_temp (the warning branch passes no
position, as in the source). -/
def checkEngineTemp (th : AlertSettings) (cd : ℚ) (store : CooldownStore) (now : ℚ)
    (vehicle_id : ℤ) (temp : ℚ) (t : Telemetry) : List Alert × CooldownStore :=
  if temp ≥ th.ENGINE_TEMP_CRITICAL then
    let r := createAlert cd store now vehicle_id .engine_overheat .critical
      t.latitude t.longitude (some temp) (some th.ENGINE_TEMP_CRITICAL) none
    (alertList r.1, r.2)
  else if temp ≥ th.ENGINE_TEMP_WARNING then
    let r := createAlert cd store now vehicle_id .engine_overheat .warning
      none none (some temp) (some th.ENGINE_TEMP_WARNING) none
    (alertList r.1, r.2)
  else ([], store)

/-- AlertEngine._check_rpm. -/
def checkRpm (th : AlertSettings) (cd : ℚ) (store : CooldownStore) (now : ℚ)
    (vehicle_id : ℤ) (rpm : ℚ) : List Alert × CooldownStore :=
  if rpm ≥ th.RPM_CRITICAL then
    let r := createAlert cd store now vehicle_id .engine_overheat .critical
      none none (some rpm) (some th.RPM_CRITICAL) none
    (alertList r.1, r.2)
  else ([], store)

/-- AlertEngine._check_fuel (the warning branch passes no position, as
in the source). -/
def checkFuel (th : AlertSettings) (cd : ℚ) (store : CooldownStore) (now : ℚ)
    (vehicle_id : ℤ) (fuel : ℚ) (t : Telemetry) : List Alert × CooldownStore :=
  if fuel ≤ th.FUEL_LOW_CRITICAL then
    let r := createAlert cd store now vehicle_id .low_fuel .critical
      t.latitude t.longitude (some fuel) (some th.FUEL_LOW_CRITICAL) none
    (alertList r.1, r.2)
  else if fuel ≤ th.FUEL_LOW_WARNING then
    let r := createAlert cd store now vehicle_id .low_fuel .warning
      none none (some fuel) (some th.FUEL_LOW_WARNING) none
    (alertList r.1, r.2)
  else ([], store)

/-- AlertEngine._check_battery. -/
def checkBattery (cd : ℚ) (store : CooldownStore) (now : ℚ)
    (vehicle_id : ℤ) (voltage : ℚ) : List Alert × CooldownStore :=
  if voltage < 11.5 then
    let r := createAlert cd store now vehicle_id .low_battery .warning
      none none (some voltage) (some 11.5) none
    (alertList r.1, r.2)
  else ([], store)

/-- The first (harsh-brake) if block of _check_driver_behavior. -/
def checkHarshBrake (th : AlertSettings) (cd : ℚ) (store : CooldownStore) (now : ℚ)
    (vehicle_id : ℤ) (accel_y : ℚ) (t : Telemetry) : List Alert × CooldownStore :=
  if accel_y ≤ th.HARSH_BRAKE_THRESHOLD then
    let r := createAlert cd store now vehicle_id .harsh_braking .warning
      t.latitude t.longitude (some accel_y) (some th.HARSH_BRAKE_THRESHOLD) none
    (alertList r.1, r.2)
  else ([], store)

/-- The second (harsh-acceleration) if block of _check_driver_behavior,
continuing from the state the first block left. -/
def checkHarshAccel (th : AlertSettings) (cd : ℚ) (r1 : List Alert × CooldownStore)
    (now : ℚ) (vehicle_id : ℤ) (accel_y : ℚ) (t : Telemetry) :
    List Alert × CooldownStore :=
  if accel_y ≥ th.HARSH_ACCEL_THRESHOLD then
    let r := createAlert cd r1.2 now vehicle_id .harsh_acceleration .warning
      t.latitude t.longitude (some accel_y) (some th.HARSH_ACCEL_THRESHOLD) none
    (r1.1 ++ alertList r.1, r.2)
  else r1

/-- AlertEngine._check_driver_behavior: both the harsh-brake and the
harsh-acceleration test run on acceleration_y (0 when absent), each
appending independently. -/
def checkDriverBehavior (th : AlertSettings) (cd : ℚ) (store : CooldownStore) (now : ℚ)
    (vehicle_id : ℤ) (t : Telemetry) : List Alert × CooldownStore :=
  checkHarshAccel th cd
    (checkHarshBrake th cd store now vehicle_id (t.acceleration_y.getD 0) t)
    now vehicle_id (t.acceleration_y.getD 0) t

/-- The loop body of AlertEngine._check_dtcs: one _create_alert call per
code, the code string travelling in details. -/
def dtcStep (cd now : ℚ) (vehicle_id : ℤ) (acc : List Alert × CooldownStore)
    (code : String) : List Alert × CooldownStore :=
  let r := createAlert cd acc.2 now vehicle_id .dtc_detected .warning
    none none none none (some code)
  (acc.1 ++ alertList r.1, r.2)

/-- AlertEngine._check_dtcs: iterate over the first five codes; every
iteration shares the one cooldown key (vehicle, dtc_detected, warning). -/
def checkDtcs (cd : ℚ) (store : CooldownStore) (now : ℚ)
    (vehicle_id : ℤ) (dtcs : List String) : List Alert × CooldownStore :=
  (dtcs.take 5).foldl (dtcStep cd now vehicle_id) ([], store)

/-- The speed selection of evaluate: telemetry.get("vehicle_speed") or
telemetry.get("gps_speed") or 0, with Python falsiness (None and 0 both
fall through). -/
def speedOf (t : Telemetry) : ℚ :=
  match t.vehicle_speed with
  | some v => if v ≠ 0 then v else match t.gps_speed with
    | some g => if g ≠ 0 then g else 0
    | none => 0
  | none => match t.gps_speed with
    | some g => if g ≠ 0 then g else 0
    | none => 0

/-- The 'if field is not None: alerts.extend(check(field))' dispatch of
AlertEngine.evaluate: an absent field contributes nothing and leaves the
store alone. -/
def optCheck (o : Option ℚ) (store : CooldownStore)
    (f : ℚ → List Alert × CooldownStore) : List Alert × CooldownStore :=
  match o with
  | some x => f x
  | none => ([], store)

/-- AlertEngine.evaluate: run the per-category checks in source order,
threading the shared cooldown store, and concatenate their alerts.  A
category whose telemetry field is absent is skipped. -/
def evaluate (th : AlertSettings) (cd : ℚ) (store : CooldownStore) (now : ℚ)
    (vehicle_id : ℤ) (t : Telemetry) : List Alert × CooldownStore :=
  let r1 := checkSpeed th cd store now vehicle_id (speedOf t) t
  let r2 := optCheck t.coolant_temp r1.2
    (fun temp => checkEngineTemp th cd r1.2 now vehicle_id temp t)
  let r3 := optCheck t.engine_rpm r2.2
    (fun rpm => checkRpm th cd r2.2 now vehicle_id rpm)
  let r4 := optCheck t.fuel_level r3.2
    (fun fuel => checkFuel th cd r3.2 now vehicle_id fuel t)
  let r5 := optCheck t.battery_voltage r4.2
    (fun voltage => checkBattery cd r4.2 now vehicle_id voltage)
  let r6 := optCheck t.acceleration_y r5.2
    (fun _ => checkDriverBehavior th cd r5.2 now vehicle_id t)
  let r7 := if t.dtc_codes ≠ [] then checkDtcs cd r6.2 now vehicle_id t.dtc_codes
    else ([], r6.2)
  (r1.1 ++ r2.1 ++ r3.1 ++ r4.1 ++ r5.1 ++ r6.1 ++ r7.1, r7.2)

theorem alertList_length (o : Option Alert) : (alertList o).length ≤ 1 := by
  cases o <;> simp [alertList]

theorem mem_alertList {o : Option Alert} {a : Alert} (h : a ∈ alertList o) :
    o = some a := by
  cases o with
  | none => simp [alertList] at h
  | some x => simp [alertList] at h; rw [h]

theorem createAlert_fst {cd : ℚ} {store : CooldownStore} {now : ℚ} {vid : ℤ}
    {ty : AlertType} {sv : AlertSeverity} {lat lon tv thv : Option ℚ}
    {det : Option String} {a : Alert}
    (h : (createAlert cd store now vid ty sv lat lon tv thv det).1 = some a) :
    a = { vehicle_id := vid, alert_type := ty, severity := sv, details := det,
          latitude := lat, longitude := lon, trigger_value := tv,
          threshold_value := thv, created_at := now } := by
  unfold createAlert at h
  split at h
  · simp at h
  · simp at h
    rw [← h]

/-- Every alert an individual check appends carries the type, severity,
details and timestamp that the check passed to _create_alert. -/
theorem mem_check_created {cd : ℚ} {store : CooldownStore} {now : ℚ} {vid : ℤ}
    {ty : AlertType} {sv : AlertSeverity} {lat lon tv thv : Option ℚ}
    {det : Option String} {a : Alert}
    (h : a ∈ alertList (createAlert cd store now vid ty sv lat lon tv thv det).1) :
    a.alert_type = ty ∧ a.severity = sv ∧ a.details = det ∧ a.created_at = now := by
  rw [createAlert_fst (mem_alertList h)]
  exact ⟨rfl, rfl, rfl, rfl⟩

/-- _create_alert touches the store only at its own cooldown key. -/
theorem createAlert_snd_lookup (cd : ℚ) (store : CooldownStore) (now : ℚ)
    (vid : ℤ) (ty : AlertType) (sv : AlertSeverity) (lat lon tv thv : Option ℚ)
    (det : Option String) (k : CooldownKey) (hk : k ≠ (vid, ty, sv)) :
    lookupAssoc (createAlert cd store now vid ty sv lat lon tv thv det).2 k =
      lookupAssoc store k := by
  unfold createAlert
  split
  · rfl
  · exact lookupAssoc_dictInsert_ne _ _ _ _ hk

theorem key_ne_of_type_ne {k : CooldownKey} {ty : AlertType} (vid : ℤ)
    (sv : AlertSeverity) (h : k.2.1 ≠ ty) : k ≠ (vid, ty, sv) :=
  fun he => h (by rw [he])

theorem checkSpeed_alert_types (th : AlertSettings) (cd : ℚ) (store : CooldownStore)
    (now : ℚ) (vid : ℤ) (x : ℚ) (t : Telemetry) :
    ∀ a ∈ (checkSpeed th cd store now vid x t).1, a.alert_type = AlertType.speeding := by
  unfold checkSpeed
  split
  · intro a ha; exact (mem_check_created ha).1
  · split
    · intro a ha; exact (mem_check_created ha).1
    · intro a ha; simp at ha

theorem checkSpeed_snd_lookup (th : AlertSettings) (cd : ℚ) (store : CooldownStore)
    (now : ℚ) (vid : ℤ) (x : ℚ) (t : Telemetry) (k : CooldownKey)
    (hk : k.2.1 ≠ AlertType.speeding) :
    lookupAssoc (checkSpeed th cd store now vid x t).2 k = lookupAssoc store k := by
  unfold checkSpeed
  split
  · exact createAlert_snd_lookup _ _ _ _ _ _ _ _ _ _ _ _ (key_ne_of_type_ne _ _ hk)
  · split
    · exact createAlert_snd_lookup _ _ _ _ _ _ _ _ _ _ _ _ (key_ne_of_type_ne _ _ hk)
    · rfl

theorem checkEngineTemp_alert_types (th : AlertSettings) (cd : ℚ) (store : CooldownStore)
    (now : ℚ) (vid : ℤ) (x : ℚ) (t : Telemetry) :
    ∀ a ∈ (checkEngineTemp th cd store now vid x t).1,
      a.alert_type = AlertType.engine_overheat := by
  unfold checkEngineTemp
  split
  · intro a ha; exact (mem_check_created ha).1
  · split
    · intro a ha; exact (mem_check_created ha).1
    · intro a ha; simp at ha

theorem checkEngineTemp_snd_lookup (th : AlertSettings) (cd : ℚ) (store : CooldownStore)
    (now : ℚ) (vid : ℤ) (x : ℚ) (t : Telemetry) (k : CooldownKey)
    (hk : k.2.1 ≠ AlertType.engine_overheat) :
    lookupAssoc (checkEngineTemp th cd store now vid x t).2 k = lookupAssoc store k := by
  unfold checkEngineTemp
  split
  · exact createAlert_snd_lookup _ _ _ _ _ _ _ _ _ _ _ _ (key_ne_of_type_ne _ _ hk)
  · split
    · exact createAlert_snd_lookup _ _ _ _ _ _ _ _ _ _ _ _ (key_ne_of_type_ne _ _ hk)
    · rfl

theorem checkRpm_alert_types (th : AlertSettings) (cd : ℚ) (store : CooldownStore)
    (now : ℚ) (vid : ℤ) (x : ℚ) :
    ∀ a ∈ (checkRpm th cd store now vid x).1,
      a.alert_type = AlertType.engine_overheat := by
  unfold checkRpm
  split
  · intro a ha; exact (mem_check_created ha).1
  · intro a ha; simp at ha

theorem checkRpm_snd_lookup (th : AlertSettings) (cd : ℚ) (store : CooldownStore)
    (now : ℚ) (vid : ℤ) (x : ℚ) (k : CooldownKey)
    (hk : k.2.1 ≠ AlertType.engine_overheat) :
    lookupAssoc (checkRpm th cd store now vid x).2 k = lookupAssoc store k := by
  unfold checkRpm
  split
  · exact createAlert_snd_lookup _ _ _ _ _ _ _ _ _ _ _ _ (key_ne_of_type_ne _ _ hk)
  · rfl

theorem checkFuel_alert_types (th : AlertSettings) (cd : ℚ) (store : CooldownStore)
    (now : ℚ) (vid : ℤ) (x : ℚ) (t : Telemetry) :
    ∀ a ∈ (checkFuel th cd store now vid x t).1, a.alert_type = AlertType.low_fuel := by
  unfold checkFuel
  split
  · intro a ha; exact (mem_check_created ha).1
  · split
    · intro a ha; exact (mem_check_created ha).1
    · intro a ha; simp at ha

theorem checkFuel_snd_lookup (th : AlertSettings) (cd : ℚ) (store : CooldownStore)
    (now : ℚ) (vid : ℤ) (x : ℚ) (t : Telemetry) (k : CooldownKey)
    (hk : k.2.1 ≠ AlertType.low_fuel) :
    lookupAssoc (checkFuel th cd store now vid x t).2 k = lookupAssoc store k := by
  unfold checkFuel
  split
  · exact createAlert_snd_lookup _ _ _ _ _ _ _ _ _ _ _ _ (key_ne_of_type_ne _ _ hk)
  · split
    · exact createAlert_snd_lookup _ _ _ _ _ _ _ _ _ _ _ _ (key_ne_of_type_ne _ _ hk)
    · rfl

theorem checkBattery_alert_types (cd : ℚ) (store : CooldownStore)
    (now : ℚ) (vid : ℤ) (x : ℚ) :
    ∀ a ∈ (checkBattery cd store now vid x).1,
      a.alert_type = AlertType.low_battery := by
  unfold checkBattery
  split
  · intro a ha; exact (mem_check_created ha).1
  · intro a ha; simp at ha

theorem checkBattery_snd_lookup (cd : ℚ) (store : CooldownStore)
    (now : ℚ) (vid : ℤ) (x : ℚ) (k : CooldownKey)
    (hk : k.2.1 ≠ AlertType.low_battery) :
    lookupAssoc (checkBattery cd store now vid x).2 k = lookupAssoc store k := by
  unfold checkBattery
  split
  · exact createAlert_snd_lookup _ _ _ _ _ _ _ _ _ _ _ _ (key_ne_of_type_ne _ _ hk)
  · rfl

theorem checkHarshBrake_alert_types (th : AlertSettings) (cd : ℚ)
    (store : CooldownStore) (now : ℚ) (vid : ℤ) (x : ℚ) (t : Telemetry) :
    ∀ a ∈ (checkHarshBrake th cd store now vid x t).1,
      a.alert_type = AlertType.harsh_braking := by
  unfold checkHarshBrake
  split
  · intro a ha; exact (mem_check_created ha).1
  · intro a ha; simp at ha

theorem checkHarshBrake_snd_lookup (th : AlertSettings) (cd : ℚ)
    (store : CooldownStore) (now : ℚ) (vid : ℤ) (x : ℚ) (t : Telemetry)
    (k : CooldownKey) (hk : k.2.1 ≠ AlertType.harsh_braking) :
    lookupAssoc (checkHarshBrake th cd store now vid x t).2 k =
      lookupAssoc store k := by
  unfold checkHarshBrake
  split
  · exact createAlert_snd_lookup _ _ _ _ _ _ _ _ _ _ _ _ (key_ne_of_type_ne _ _ hk)
  · rfl

theorem checkDriverBehavior_alert_types (th : AlertSettings) (cd : ℚ)
    (store : CooldownStore) (now : ℚ) (vid : ℤ) (t : Telemetry) :
    ∀ a ∈ (checkDriverBehavior th cd store now vid t).1,
      a.alert_type = AlertType.harsh_braking ∨
        a.alert_type = AlertType.harsh_acceleration := by
  unfold checkDriverBehavior checkHarshAccel
  split
  · intro a ha
    rcases List.mem_append.mp ha with h | h
    · exact Or.inl (checkHarshBrake_alert_types _ _ _ _ _ _ _ a h)
    · exact Or.inr (mem_check_created h).1
  · intro a ha
    exact Or.inl (checkHarshBrake_alert_types _ _ _ _ _ _ _ a ha)

theorem checkDriverBehavior_snd_lookup (th : AlertSettings) (cd : ℚ)
    (store : CooldownStore) (now : ℚ) (vid : ℤ) (t : Telemetry) (k : CooldownKey)
    (hk1 : k.2.1 ≠ AlertType.harsh_braking)
    (hk2 : k.2.1 ≠ AlertType.harsh_acceleration) :
    lookupAssoc (checkDriverBehavior th cd store now vid t).2 k =
      lookupAssoc store k := by
  unfold checkDriverBehavior checkHarshAccel
  split
  · rw [createAlert_snd_lookup _ _ _ _ _ _ _ _ _ _ _ _ (key_ne_of_type_ne _ _ hk2)]
    exact checkHarshBrake_snd_lookup _ _ _ _ _ _ _ _ hk1
  · exact checkHarshBrake_snd_lookup _ _ _ _ _ _ _ _ hk1

theorem optCheck_snd_lookup (o : Option ℚ) (store : CooldownStore)
    (f : ℚ → List Alert × CooldownStore) (k : CooldownKey)
    (h : ∀ x, lookupAssoc (f x).2 k = lookupAssoc store k) :
    lookupAssoc (optCheck o store f).2 k = lookupAssoc store k := by
  cases o with
  | none => rfl
  | some x => exact h x

theorem optCheck_filter (o : Option ℚ) (store : CooldownStore)
    (f : ℚ → List Alert × CooldownStore) (p : Alert → Bool)
    (h : ∀ x, (f x).1.filter p = []) :
    (optCheck o store f).1.filter p = [] := by
  cases o with
  | none => rfl
  | some x => exact h x

/-- Once the shared DTC cooldown key holds the current timestamp, every
further iteration of the _check_dtcs loop is suppressed (the elapsed
time is zero, below any positive cooldown). -/
theorem foldl_dtcStep_suppressed (cd now : ℚ) (vid : ℤ) (codes : List String)
    (acc : List Alert) (store : CooldownStore)
    (hl : lookupAssoc store (vid, AlertType.dtc_detected, AlertSeverity.warning) =
      some now)
    (hcd : 0 < cd) :
    codes.foldl (dtcStep cd now vid) (acc, store) = (acc, store) := by
  induction codes generalizing acc with
  | nil => rfl
  | cons c0 rest ih =>
      rw [List.foldl_cons]
      have hsup : cooldownSuppressed cd store now
          (vid, AlertType.dtc_detected, AlertSeverity.warning) = true := by
        simp [cooldownSuppressed, hl, hcd]
      have hstep : dtcStep cd now vid (acc, store) c0 = (acc, store) := by
        unfold dtcStep createAlert
        simp [hsup, alertList]
      rw [hstep, ih]

/-- With a fresh DTC cooldown key, _check_dtcs emits exactly one alert:
the first code's.  All later codes hit the cooldown written by the first
iteration. -/
theorem checkDtcs_fresh (cd : ℚ) (store : CooldownStore) (now : ℚ) (vid : ℤ)
    (c : String) (rest : List String)
    (hfresh : lookupAssoc store (vid, AlertType.dtc_detected, AlertSeverity.warning) =
      none)
    (hcd : 0 < cd) :
    (checkDtcs cd store now vid (c :: rest)).1 =
      [{ vehicle_id := vid, alert_type := AlertType.dtc_detected,
         severity := AlertSeverity.warning, details := some c, latitude := none,
         longitude := none, trigger_value := none, threshold_value := none,
         created_at := now }] := by
  unfold checkDtcs
  rw [List.take_succ_cons, List.foldl_cons]
  have hsup : cooldownSuppressed cd store now
      (vid, AlertType.dtc_detected, AlertSeverity.warning) = false := by
    simp [cooldownSuppressed, hfresh]
  have hstep : dtcStep cd now vid ([], store) c =
      ([{ vehicle_id := vid, alert_type := AlertType.dtc_detected,
          severity := AlertSeverity.warning, details := some c, latitude := none,
          longitude := none, trigger_value := none, threshold_value := none,
          created_at := now }],
        dictInsert store (vid, AlertType.dtc_detected, AlertSeverity.warning) now) := by
    unfold dtcStep createAlert
    simp [hsup, alertList]
  rw [hstep,
    foldl_dtcStep_suppressed cd now vid _ _ _ (lookupAssoc_dictInsert_self ..) hcd]

theorem filter_dtc_of_types {l : List Alert}
    (h : ∀ a ∈ l, a.alert_type ≠ AlertType.dtc_detected) :
    l.filter (fun a => decide (a.alert_type = AlertType.dtc_detected)) = [] := by
  induction l with
  | nil => rfl
  | cons a rest ih =>
      rw [List.filter_cons]
      have ha := h a (List.mem_cons_self ..)
      rw [if_neg (by simp [ha])]
      exact ih (fun b hb => h b (List.mem_cons_of_mem _ hb))

/-- C1: alert emission is debounced through the cooldown store keyed by
(vehicle_id, alert_type, severity): same-key alerts fired less than
cooldown_seconds (default 300) ago are suppressed without updating the
store; a key never fired, or fired at least cooldown_seconds ago, emits
and sets the store timestamp for the key to now.  Concretely, evaluate()
at t=0 for a speeding vehicle emits one alert, again at t=100 emits
none, and at t=400 (past the 300 s window measured from the first
firing) emits a second. -/
theorem create_alert_cooldown_debounce (cd : ℚ) (store : CooldownStore) (now : ℚ)
    (vid : ℤ) (ty : AlertType) (sv : AlertSeverity)
    (lat lon tv thv : Option ℚ) (det : Option String) :
    (∀ last, lookupAssoc store (vid, ty, sv) = some last → now - last < cd →
      createAlert cd store now vid ty sv lat lon tv thv det = (none, store)) ∧
    (∀ last, lookupAssoc store (vid, ty, sv) = some last → cd ≤ now - last →
      (createAlert cd store now vid ty sv lat lon tv thv det).1.isSome = true ∧
      lookupAssoc (createAlert cd store now vid ty sv lat lon tv thv det).2
        (vid, ty, sv) = some now) ∧
    (lookupAssoc store (vid, ty, sv) = none →
      (createAlert cd store now vid ty sv lat lon tv thv det).1.isSome = true ∧
      lookupAssoc (createAlert cd store now vid ty sv lat lon tv thv det).2
        (vid, ty, sv) = some now) ∧
    ((evaluate {} 300 [] 0 1 { vehicle_speed := some 160 }).1.length = 1 ∧
      (evaluate {} 300 (evaluate {} 300 [] 0 1 { vehicle_speed := some 160 }).2 100 1
        { vehicle_speed := some 160 }).1.length = 0 ∧
      (evaluate {} 300
        (evaluate {} 300 (evaluate {} 300 [] 0 1 { vehicle_speed := some 160 }).2 100 1
          { vehicle_speed := some 160 }).2 400 1
        { vehicle_speed := some 160 }).1.length = 1) := by
  refine ⟨?_, ?_, ?_, ?_⟩
  · intro last hl hlt
    have hsup : cooldownSuppressed cd store now (vid, ty, sv) = true := by
      simp [cooldownSuppressed, hl, hlt]
    unfold createAlert
    rw [if_pos hsup]
  · intro last hl hge
    have hsup : cooldownSuppressed cd store now (vid, ty, sv) = false := by
      simp [cooldownSuppressed, hl]
      exact hge
    unfold createAlert
    rw [if_neg (by simp [hsup])]
    exact ⟨rfl, lookupAssoc_dictInsert_self ..⟩
  · intro hl
    have hsup : cooldownSuppressed cd store now (vid, ty, sv) = false := by
      simp [cooldownSuppressed, hl]
    unfold createAlert
    rw [if_neg (by simp [hsup])]
    exact ⟨rfl, lookupAssoc_dictInsert_self ..⟩
  · refine ⟨?_, ?_, ?_⟩ <;>
      norm_num [evaluate, checkSpeed, checkEngineTemp, checkRpm, checkFuel,
        checkBattery, checkDriverBehavior, checkHarshBrake, checkHarshAccel,
        checkDtcs, dtcStep, optCheck, speedOf, createAlert, cooldownSuppressed,
        lookupAssoc, dictInsert, alertList]

theorem create_alert_cooldown_debounce_witness :
    createAlert 300 [((1, AlertType.speeding, AlertSeverity.critical), 0)] 100 1
      AlertType.speeding AlertSeverity.critical none none none none none =
      (none, [((1, AlertType.speeding, AlertSeverity.critical), 0)]) ∧
    lookupAssoc (createAlert 300 [((1, AlertType.speeding, AlertSeverity.critical), 0)]
      400 1 AlertType.speeding AlertSeverity.critical none none none none none).2
      (1, AlertType.speeding, AlertSeverity.critical) = some 400 ∧
    lookupAssoc (createAlert 300 [] 0 1 AlertType.speeding AlertSeverity.critical
      none none none none none).2 (1, AlertType.speeding, AlertSeverity.critical) =
      some 0 := by
  refine ⟨?_, ?_, ?_⟩
  · exact (create_alert_cooldown_debounce 300
      [((1, AlertType.speeding, AlertSeverity.critical), 0)] 100 1
      AlertType.speeding AlertSeverity.critical none none none none none).1 0
      rfl (by norm_num)
  · exact ((create_alert_cooldown_debounce 300
      [((1, AlertType.speeding, AlertSeverity.critical), 0)] 400 1
      AlertType.speeding AlertSeverity.critical none none none none none).2.1 0
      rfl (by norm_num)).2
  · exact ((create_alert_cooldown_debounce 300 [] 0 1
      AlertType.speeding AlertSeverity.critical none none none none
      none).2.2.1 rfl).2

/-- C2: for the two-tier categories (speed, engine temperature, fuel) a
single check emits at most one alert, at the highest tier met — the
critical branch shadows the warning branch through if/elif — and with
speed 160 against the default thresholds (warning 120, critical 150) and
an empty store, evaluate emits exactly one critical speeding alert and
no warning one. -/
theorem evaluate_tier_exclusivity (th : AlertSettings) (cd : ℚ) (store : CooldownStore)
    (now : ℚ) (vid : ℤ) (x : ℚ) (t : Telemetry) :
    ((checkSpeed th cd store now vid x t).1.length ≤ 1 ∧
      (th.SPEED_LIMIT_CRITICAL ≤ x →
        ∀ a ∈ (checkSpeed th cd store now vid x t).1,
          a.severity = AlertSeverity.critical) ∧
      (x < th.SPEED_LIMIT_CRITICAL → th.SPEED_LIMIT_WARNING ≤ x →
        ∀ a ∈ (checkSpeed th cd store now vid x t).1,
          a.severity = AlertSeverity.warning) ∧
      (x < th.SPEED_LIMIT_CRITICAL → x < th.SPEED_LIMIT_WARNING →
        checkSpeed th cd store now vid x t = ([], store))) ∧
    ((checkEngineTemp th cd store now vid x t).1.length ≤ 1 ∧
      (th.ENGINE_TEMP_CRITICAL ≤ x →
        ∀ a ∈ (checkEngineTemp th cd store now vid x t).1,
          a.severity = AlertSeverity.critical) ∧
      (x < th.ENGINE_TEMP_CRITICAL → th.ENGINE_TEMP_WARNING ≤ x →
        ∀ a ∈ (checkEngineTemp th cd store now vid x t).1,
          a.severity = AlertSeverity.warning) ∧
      (x < th.ENGINE_TEMP_CRITICAL → x < th.ENGINE_TEMP_WARNING →
        checkEngineTemp th cd store now vid x t = ([], store))) ∧
    ((checkFuel th cd store now vid x t).1.length ≤ 1 ∧
      (x ≤ th.FUEL_LOW_CRITICAL →
        ∀ a ∈ (checkFuel th cd store now vid x t).1,
          a.severity = AlertSeverity.critical) ∧
      (th.FUEL_LOW_CRITICAL < x → x ≤ th.FUEL_LOW_WARNING →
        ∀ a ∈ (checkFuel th cd store now vid x t).1,
          a.severity = AlertSeverity.warning) ∧
      (th.FUEL_LOW_CRITICAL < x → th.FUEL_LOW_WARNING < x →
        checkFuel th cd store now vid x t = ([], store))) ∧
    ((evaluate {} 300 [] 0 1 { vehicle_speed := some 160 }).1.map
        (fun a => (a.alert_type, a.severity)) =
      [(AlertType.speeding, AlertSeverity.critical)]) := by
  refine ⟨⟨?_, ?_, ?_, ?_⟩, ⟨?_, ?_, ?_, ?_⟩, ⟨?_, ?_, ?_, ?_⟩, ?_⟩
  · unfold checkSpeed
    split
    · exact alertList_length _
    · split
      · exact alertList_length _
      · simp
  · intro hc a ha
    unfold checkSpeed at ha
    rw [if_pos hc] at ha
    exact (mem_check_created ha).2.1
  · intro h1 h2 a ha
    unfold checkSpeed at ha
    rw [if_neg (not_le.mpr h1), if_pos h2] at ha
    exact (mem_check_created ha).2.1
  · intro h1 h2
    unfold checkSpeed
    rw [if_neg (not_le.mpr h1), if_neg (not_le.mpr h2)]
  · unfold checkEngineTemp
    split
    · exact alertList_length _
    · split
      · exact alertList_length _
      · simp
  · intro hc a ha
    unfold checkEngineTemp at ha
    rw [if_pos hc] at ha
    exact (mem_check_created ha).2.1
  · intro h1 h2 a ha
    unfold checkEngineTemp at ha
    rw [if_neg (not_le.mpr h1), if_pos h2] at ha
    exact (mem_check_created ha).2.1
  · intro h1 h2
    unfold checkEngineTemp
    rw [if_neg (not_le.mpr h1), if_neg (not_le.mpr h2)]
  · unfold checkFuel
    split
    · exact alertList_length _
    · split
      · exact alertList_length _
      · simp
  · intro hc a ha
    unfold checkFuel at ha
    rw [if_pos hc] at ha
    exact (mem_check_created ha).2.1
  · intro h1 h2 a ha
    unfold checkFuel at ha
    rw [if_neg (not_le.mpr h1), if_pos h2] at ha
    exact (mem_check_created ha).2.1
  · intro h1 h2
    unfold checkFuel
    rw [if_neg (not_le.mpr h1), if_neg (not_le.mpr h2)]
  · norm_num [evaluate, checkSpeed, checkEngineTemp, checkRpm, checkFuel,
      checkBattery, checkDriverBehavior, checkHarshBrake, checkHarshAccel,
      checkDtcs, dtcStep, optCheck, speedOf, createAlert, cooldownSuppressed,
      lookupAssoc, dictInsert, alertList]

theorem evaluate_tier_exclusivity_witness :
    (checkSpeed {} 300 [] 0 1 200 {}).1.length ≤ 1 ∧
    (∀ a ∈ (checkSpeed {} 300 [] 0 1 200 {}).1,
      a.severity = AlertSeverity.critical) ∧
    (∀ a ∈ (checkFuel {} 300 [] 0 1 10 {}).1,
      a.severity = AlertSeverity.warning) := by
  refine ⟨(evaluate_tier_exclusivity {} 300 [] 0 1 200 {}).1.1,
    (evaluate_tier_exclusivity {} 300 [] 0 1 200 {}).1.2.1 ?_,
    (evaluate_tier_exclusivity {} 300 [] 0 1 10 {}).2.2.1.2.2.1 ?_ ?_⟩
  · norm_num
  · norm_num
  · norm_num

/-- C5 counterexample: telemetry carrying the two DTC codes P0100 and
P0101 against an empty cooldown store.  The claim predicts one
DTC_DETECTED warning per code; the engine emits an alert only for P0100,
because every iteration of _check_dtcs shares the single cooldown key
(vehicle, dtc_detected, warning), which the first iteration sets to the
current time, suppressing the rest. -/
theorem evaluate_dtc_not_per_code :
    ¬ (∀ code ∈ ["P0100", "P0101"],
        ∃ a ∈ (evaluate {} 300 [] 0 1 { dtc_codes := ["P0100", "P0101"] }).1,
          a.alert_type = AlertType.dtc_detected ∧ a.details = some code) := by
  intro h
  obtain ⟨a, ha, hty, hdet⟩ := h "P0101" (by simp)
  have he : (evaluate {} 300 [] 0 1 { dtc_codes := ["P0100", "P0101"] }).1 =
      [{ vehicle_id := 1, alert_type := AlertType.dtc_detected,
         severity := AlertSeverity.warning, details := some "P0100",
         latitude := none, longitude := none, trigger_value := none,
         threshold_value := none, created_at := 0 }] := by
    norm_num [evaluate, checkSpeed, checkEngineTemp, checkRpm, checkFuel,
      checkBattery, checkDriverBehavior, checkHarshBrake, checkHarshAccel,
      checkDtcs, dtcStep, optCheck, speedOf, createAlert, cooldownSuppressed,
      lookupAssoc, dictInsert, alertList]
    rw [if_neg (by simp)]
  rw [he] at ha
  simp at ha
  rw [ha] at hdet
  simp at hdet

/-- C5 (amended): for a telemetry reading with a non-empty dtc_codes
list, a fresh (vehicle, dtc_detected, warning) cooldown key and a
positive cooldown, evaluate() emits exactly ONE DTC_DETECTED alert —
for the first code — rather than one per code among the first five: the
first iteration's cooldown write suppresses all later codes. -/
theorem evaluate_dtc_first_code_only (th : AlertSettings) (cd : ℚ)
    (store : CooldownStore) (now : ℚ) (vid : ℤ) (t : Telemetry)
    (c : String) (rest : List String)
    (hcodes : t.dtc_codes = c :: rest)
    (hfresh : lookupAssoc store (vid, AlertType.dtc_detected, AlertSeverity.warning) =
      none)
    (hcd : 0 < cd) :
    ((evaluate th cd store now vid t).1.filter
        (fun a => decide (a.alert_type = AlertType.dtc_detected))).map
      (fun a => a.details) = [some c] := by
  simp only [evaluate]
  obtain ⟨l1, s1, h1⟩ : ∃ l s, checkSpeed th cd store now vid (speedOf t) t = (l, s) :=
    ⟨_, _, rfl⟩
  simp only [h1]
  obtain ⟨l2, s2, h2⟩ : ∃ l s, optCheck t.coolant_temp s1
      (fun temp => checkEngineTemp th cd s1 now vid temp t) = (l, s) := ⟨_, _, rfl⟩
  simp only [h2]
  obtain ⟨l3, s3, h3⟩ : ∃ l s, optCheck t.engine_rpm s2
      (fun rpm => checkRpm th cd s2 now vid rpm) = (l, s) := ⟨_, _, rfl⟩
  simp only [h3]
  obtain ⟨l4, s4, h4⟩ : ∃ l s, optCheck t.fuel_level s3
      (fun fuel => checkFuel th cd s3 now vid fuel t) = (l, s) := ⟨_, _, rfl⟩
  simp only [h4]
  obtain ⟨l5, s5, h5⟩ : ∃ l s, optCheck t.battery_voltage s4
      (fun voltage => checkBattery cd s4 now vid voltage) = (l, s) := ⟨_, _, rfl⟩
  simp only [h5]
  obtain ⟨l6, s6, h6⟩ : ∃ l s, optCheck t.acceleration_y s5
      (fun _ => checkDriverBehavior th cd s5 now vid t) = (l, s) := ⟨_, _, rfl⟩
  simp only [h6]
  have h7 : (if t.dtc_codes ≠ [] then checkDtcs cd s6 now vid t.dtc_codes
      else ([], s6)) = checkDtcs cd s6 now vid (c :: rest) := by
    rw [hcodes]
    exact if_pos (List.cons_ne_nil c rest)
  simp only [h7]
  -- the six pre-DTC alert lists contain no DTC alert
  have hKs : (vid, AlertType.dtc_detected, AlertSeverity.warning).2.1 =
      AlertType.dtc_detected := rfl
  have f1 : l1.filter (fun a => decide (a.alert_type = AlertType.dtc_detected)) = [] := by
    apply filter_dtc_of_types
    intro a ha
    have hmem : a ∈ (checkSpeed th cd store now vid (speedOf t) t).1 := by
      rw [h1]; exact ha
    rw [checkSpeed_alert_types th cd store now vid (speedOf t) t a hmem]
    simp
  have f2 : l2.filter (fun a => decide (a.alert_type = AlertType.dtc_detected)) = [] := by
    have := optCheck_filter t.coolant_temp s1
      (fun temp => checkEngineTemp th cd s1 now vid temp t)
      (fun a => decide (a.alert_type = AlertType.dtc_detected))
      (fun x => filter_dtc_of_types (fun a ha => by
        rw [checkEngineTemp_alert_types th cd s1 now vid x t a ha]; simp))
    rw [h2] at this
    exact this
  have f3 : l3.filter (fun a => decide (a.alert_type = AlertType.dtc_detected)) = [] := by
    have := optCheck_filter t.engine_rpm s2
      (fun rpm => checkRpm th cd s2 now vid rpm)
      (fun a => decide (a.alert_type = AlertType.dtc_detected))
      (fun x => filter_dtc_of_types (fun a ha => by
        rw [checkRpm_alert_types th cd s2 now vid x a ha]; simp))
    rw [h3] at this
    exact this
  have f4 : l4.filter (fun a => decide (a.alert_type = AlertType.dtc_detected)) = [] := by
    have := optCheck_filter t.fuel_level s3
      (fun fuel => checkFuel th cd s3 now vid fuel t)
      (fun a => decide (a.alert_type = AlertType.dtc_detected))
      (fun x => filter_dtc_of_types (fun a ha => by
        rw [checkFuel_alert_types th cd s3 now vid x t a ha]; simp))
    rw [h4] at this
    exact this
  have f5 : l5.filter (fun a => decide (a.alert_type = AlertType.dtc_detected)) = [] := by
    have := optCheck_filter t.battery_voltage s4
      (fun voltage => checkBattery cd s4 now vid voltage)
      (fun a => decide (a.alert_type = AlertType.dtc_detected))
      (fun x => filter_dtc_of_types (fun a ha => by
        rw [checkBattery_alert_types cd s4 now vid x a ha]; simp))
    rw [h5] at this
    exact this
  have f6 : l6.filter (fun a => decide (a.alert_type = AlertType.dtc_detected)) = [] := by
    have := optCheck_filter t.acceleration_y s5
      (fun _ => checkDriverBehavior th cd s5 now vid t)
      (fun a => decide (a.alert_type = AlertType.dtc_detected))
      (fun x => filter_dtc_of_types (fun a ha => by
        rcases checkDriverBehavior_alert_types th cd s5 now vid t a ha with h | h <;>
          rw [h] <;> simp))
    rw [h6] at this
    exact this
  -- the DTC cooldown key survives the six pre-DTC checks untouched
  have hs1 : lookupAssoc s1 (vid, AlertType.dtc_detected, AlertSeverity.warning) =
      none := by
    have := checkSpeed_snd_lookup th cd store now vid (speedOf t) t
      (vid, AlertType.dtc_detected, AlertSeverity.warning) (by simp)
    rw [h1] at this
    exact this.trans hfresh
  have hs2 : lookupAssoc s2 (vid, AlertType.dtc_detected, AlertSeverity.warning) =
      none := by
    have := optCheck_snd_lookup t.coolant_temp s1
      (fun temp => checkEngineTemp th cd s1 now vid temp t)
      (vid, AlertType.dtc_detected, AlertSeverity.warning)
      (fun x => checkEngineTemp_snd_lookup th cd s1 now vid x t _ (by simp))
    rw [h2] at this
    exact this.trans hs1
  have hs3 : lookupAssoc s3 (vid, AlertType.dtc_detected, AlertSeverity.warning) =
      none := by
    have := optCheck_snd_lookup t.engine_rpm s2
      (fun rpm => checkRpm th cd s2 now vid rpm)
      (vid, AlertType.dtc_detected, AlertSeverity.warning)
      (fun x => checkRpm_snd_lookup th cd s2 now vid x _ (by simp))
    rw [h3] at this
    exact this.trans hs2
  have hs4 : lookupAssoc s4 (vid, AlertType.dtc_detected, AlertSeverity.warning) =
      none := by
    have := optCheck_snd_lookup t.fuel_level s3
      (fun fuel => checkFuel th cd s3 now vid fuel t)
      (vid, AlertType.dtc_detected, AlertSeverity.warning)
      (fun x => checkFuel_snd_lookup th cd s3 now vid x t _ (by simp))
    rw [h4] at this
    exact this.trans hs3
  have hs5 : lookupAssoc s5 (vid, AlertType.dtc_detected, AlertSeverity.warning) =
      none := by
    have := optCheck_snd_lookup t.battery_voltage s4
      (fun voltage => checkBattery cd s4 now vid voltage)
      (vid, AlertType.dtc_detected, AlertSeverity.warning)
      (fun x => checkBattery_snd_lookup cd s4 now vid x _ (by simp))
    rw [h5] at this
    exact this.trans hs4
  have hs6 : lookupAssoc s6 (vid, AlertType.dtc_detected, AlertSeverity.warning) =
      none := by
    have := optCheck_snd_lookup t.acceleration_y s5
      (fun _ => checkDriverBehavior th cd s5 now vid t)
      (vid, AlertType.dtc_detected, AlertSeverity.warning)
      (fun x => checkDriverBehavior_snd_lookup th cd s5 now vid t _ (by simp) (by simp))
    rw [h6] at this
    exact this.trans hs5
  simp only [List.filter_append, f1, f2, f3, f4, f5, f6, List.nil_append]
  rw [checkDtcs_fresh cd s6 now vid c rest hs6 hcd]
  simp

theorem evaluate_dtc_first_code_only_witness :
    ((evaluate {} 300 [] 0 1
        { dtc_codes := ["P0100", "P0101", "P0302", "P0420", "U0100", "C0035"] }).1.filter
      (fun a => decide (a.alert_type = AlertType.dtc_detected))).map
      (fun a => a.details) = [some "P0100"] :=
  evaluate_dtc_first_code_only {} 300 [] 0 1
    { dtc_codes := ["P0100", "P0101", "P0302", "P0420", "U0100", "C0035"] }
    "P0100" ["P0101", "P0302", "P0420", "U0100", "C0035"] rfl rfl (by norm_num)

end Alerts

section Gps

/-- All characters ASCII digits (Python float()/int() success condition
for the plain decimal fields NMEA sentences carry). -/
def allDigits (cs : List Char) : Bool := cs.all Char.isDigit

/-- Decimal value of a digit string. -/
def digitsVal (cs : List Char) : ℕ :=
  cs.foldl (fun a c => a * 10 + (c.toNat - 48)) 0

/-- Python float() on the plain decimal strings of NMEA fields: digits
with at most one dot; none models ValueError. -/
def parsePyFloat (cs : List Char) : Option ℚ :=
  let ip := cs.takeWhile (fun c => c != '.')
  let rest := cs.dropWhile (fun c => c != '.')
  match rest with
  | [] => if ip ≠ [] ∧ allDigits ip = true then some ((digitsVal ip : ℚ)) else none
  | _ :: fp =>
      if (ip ≠ [] ∨ fp ≠ []) ∧ allDigits ip = true ∧ allDigits fp = true then
        some ((digitsVal ip : ℚ) + (digitsVal fp : ℚ) / 10 ^ fp.length)
      else none

/-- Python int() on plain digit strings; none models ValueError. -/
def parsePyInt (cs : List Char) : Option ℤ :=
  if cs ≠ [] ∧ allDigits cs = true then some (digitsVal cs) else none

/-- Python str.index(".") as an Option (the caller has already checked
'"." in value', so none falls to the function's final 'return None'). -/
def findDot : List Char → Option ℕ
  | [] => none
  | c :: rest => if c = '.' then some 0 else (findDot rest).map (· + 1)

/-- Python value[:k] with a possibly negative k. -/
def pySliceTo (cs : List Char) (k : ℤ) : List Char :=
  if 0 ≤ k then cs.take k.toNat else cs.take (cs.length - (-k).toNat)

/-- Python value[k:] with a possibly negative k. -/
def pySliceFrom (cs : List Char) (k : ℤ) : List Char :=
  if 0 ≤ k then cs.drop k.toNat else cs.drop (cs.length - (-k).toNat)

/-- GPSTracker._nmea_to_decimal over the characters of the value string:
split two characters left of the dot, degrees plus minutes over sixty,
negated for the S and W hemispheres, rounded to six decimals. -/
def nmeaToDecimal (value direction : List Char) : Option ℚ :=
  if value = [] ∨ direction = [] then none
  else
    match findDot value with
    | some dot_index =>
        match parsePyFloat (pySliceTo value ((dot_index : ℤ) - 2)),
              parsePyFloat (pySliceFrom value ((dot_index : ℤ) - 2)) with
        | some degrees, some minutes =>
            let decimal := degrees + minutes / 60
            some (pyRound
              (if direction = ['S'] ∨ direction = ['W'] then -decimal else decimal) 6)
        | _, _ => none
    | none => none

/-- The partial fix dict built by GPSTracker._parse_nmea; the timestamp
field (a wall-clock string) is not modelled. -/
structure GpsFix where
  latitude : Option ℚ := none
  longitude : Option ℚ := none
  altitude : Option ℚ := none
  speed : Option ℚ := none
  heading : Option ℚ := none
  satellites : Option ℤ := none
deriving DecidableEq

/-- Python 'sub in s' substring containment. -/
def containsSub (sub s : List Char) : Bool :=
  if sub.isPrefixOf s then true
  else match s with
    | [] => false
    | _ :: rest => containsSub sub rest

/-- The satellites assignment of the GGA branch ('int(parts[7]) if
parts[7] else None'); a ValueError aborts the sentence, keeping the
fields already assigned. -/
def ggaSatellites (d : GpsFix) (p7 : List Char) : GpsFix :=
  if p7 = [] then { d with satellites := none }
  else match parsePyInt p7 with
    | some n => { d with satellites := some n }
    | none => d

/-- The GGA branch of _parse_nmea: latitude and longitude are assigned
unconditionally, then altitude ('float(parts[9]) if parts[9] else
None'), then satellites; a ValueError in the altitude conversion skips
the rest of the sentence. -/
def processGGA (d : GpsFix) (parts : List (List Char)) : GpsFix :=
  let d1 := { d with
    latitude := nmeaToDecimal (parts.getD 2 []) (parts.getD 3 []),
    longitude := nmeaToDecimal (parts.getD 4 []) (parts.getD 5 []) }
  if parts.getD 9 [] = [] then ggaSatellites { d1 with altitude := none } (parts.getD 7 [])
  else match parsePyFloat (parts.getD 9 []) with
    | some alt => ggaSatellites { d1 with altitude := some alt } (parts.getD 7 [])
    | none => d1

/-- The heading assignment of the RMC branch ('float(parts[8]) if
parts[8] else None'); parts[8] out of range (IndexError) or a ValueError
aborts the sentence, keeping the fields already assigned. -/
def rmcHeading (d : GpsFix) (p8 : Option (List Char)) : GpsFix :=
  match p8 with
  | none => d
  | some cs =>
      if cs = [] then { d with heading := none }
      else match parsePyFloat cs with
        | some h => { d with heading := some h }
        | none => d

/-- The RMC branch of _parse_nmea: position only fills a still-unset
latitude (GGA is authoritative), then speed in km/h from knots with the
1.852 factor rounded to one decimal, then heading. -/
def processRMC (d : GpsFix) (parts : List (List Char)) : GpsFix :=
  let d1 := if d.latitude = none then
      { d with latitude := nmeaToDecimal (parts.getD 3 []) (parts.getD 4 []),
               longitude := nmeaToDecimal (parts.getD 5 []) (parts.getD 6 []) }
    else d
  if parts.getD 7 [] = [] then
    rmcHeading { d1 with speed := some (pyRound ((0 : ℚ) * 1.852) 1) } parts[8]?
  else match parsePyFloat (parts.getD 7 []) with
    | some knots =>
        rmcHeading { d1 with speed := some (pyRound (knots * 1.852) 1) } parts[8]?
    | none => d1

/-- The GGA dispatch condition of _parse_nmea. -/
def isGGAParts (parts : List (List Char)) : Prop :=
  containsSub ['G', 'G', 'A'] (parts.getD 0 []) = true ∧ 10 ≤ parts.length

/-- The RMC dispatch condition of _parse_nmea. -/
def isRMCParts (parts : List (List Char)) : Prop :=
  containsSub ['R', 'M', 'C'] (parts.getD 0 []) = true ∧ 8 ≤ parts.length

instance (parts : List (List Char)) : Decidable (isGGAParts parts) :=
  inferInstanceAs (Decidable (_ ∧ _))

instance (parts : List (List Char)) : Decidable (isRMCParts parts) :=
  inferInstanceAs (Decidable (_ ∧ _))

/-- One iteration of the sentence loop of _parse_nmea: split on commas,
dispatch on GGA/RMC, anything else (including short sentences) is
skipped. -/
def processSentence (d : GpsFix) (sentence : List Char) : GpsFix :=
  let parts := sentence.splitOn ','
  if isGGAParts parts then processGGA d parts
  else if isRMCParts parts then processRMC d parts
  else d

/-- GPSTracker._parse_nmea: fold the sentences over an all-unknown fix. -/
def parseNmea (sentences : List (List Char)) : GpsFix :=
  sentences.foldl processSentence {}

theorem digit_ne_dot {c : Char} (h : c.isDigit = true) : c ≠ '.' := by
  intro he
  rw [he] at h
  exact absurd h (by decide)

theorem takeWhile_digits (cs : List Char) (h : allDigits cs = true) :
    cs.takeWhile (fun c => c != '.') = cs := by
  induction cs with
  | nil => rfl
  | cons c rest ih =>
      simp only [allDigits, List.all_cons, Bool.and_eq_true] at h
      rw [List.takeWhile_cons, if_pos (by simp [bne_iff_ne]; exact digit_ne_dot h.1)]
      rw [ih h.2]

theorem dropWhile_digits (cs : List Char) (h : allDigits cs = true) :
    cs.dropWhile (fun c => c != '.') = [] := by
  induction cs with
  | nil => rfl
  | cons c rest ih =>
      simp only [allDigits, List.all_cons, Bool.and_eq_true] at h
      rw [List.dropWhile_cons, if_pos (by simp [bne_iff_ne]; exact digit_ne_dot h.1)]
      exact ih h.2

theorem parsePyFloat_digits (cs : List Char) (h : allDigits cs = true) (h0 : cs ≠ []) :
    parsePyFloat cs = some ((digitsVal cs : ℚ)) := by
  unfold parsePyFloat
  rw [takeWhile_digits cs h, dropWhile_digits cs h]
  simp [h, h0]

theorem parsePyFloat_ddfrac (m1 m2 : Char) (frac : List Char)
    (hm1 : m1.isDigit = true) (hm2 : m2.isDigit = true)
    (hfrac : allDigits frac = true) :
    parsePyFloat ([m1, m2, '.'] ++ frac) =
      some ((digitsVal [m1, m2] : ℚ) + (digitsVal frac : ℚ) / 10 ^ frac.length) := by
  unfold parsePyFloat
  have e1 : ([m1, m2, '.'] ++ frac).takeWhile (fun c => c != '.') = [m1, m2] := by
    simp [List.takeWhile_cons, bne_iff_ne, digit_ne_dot hm1, digit_ne_dot hm2]
  have e2 : ([m1, m2, '.'] ++ frac).dropWhile (fun c => c != '.') = '.' :: frac := by
    simp [List.dropWhile_cons, bne_iff_ne, digit_ne_dot hm1, digit_ne_dot hm2]
  rw [e1, e2]
  simp [allDigits, hm1, hm2, hfrac]
  exact fun x hx => List.all_eq_true.mp hfrac x hx

theorem findDot_ddmm (d1 d2 m1 m2 : Char) (frac : List Char)
    (hd1 : d1.isDigit = true) (hd2 : d2.isDigit = true)
    (hm1 : m1.isDigit = true) (hm2 : m2.isDigit = true) :
    findDot ([d1, d2, m1, m2, '.'] ++ frac) = some 4 := by
  simp [findDot, digit_ne_dot hd1, digit_ne_dot hd2, digit_ne_dot hm1,
    digit_ne_dot hm2]

/-- C7: an NMEA coordinate DDMM.MMMM with a hemisphere letter converts
to degrees plus minutes over sixty, negated exactly for S and W, rounded
to six decimals (round(·, 6) modelled over ℚ). -/
theorem nmea_to_decimal_conversion (d1 d2 m1 m2 : Char) (frac dir : List Char)
    (hd1 : d1.isDigit = true) (hd2 : d2.isDigit = true)
    (hm1 : m1.isDigit = true) (hm2 : m2.isDigit = true)
    (hfrac : allDigits frac = true)
    (hdir : dir = ['N'] ∨ dir = ['S'] ∨ dir = ['E'] ∨ dir = ['W']) :
    nmeaToDecimal ([d1, d2, m1, m2, '.'] ++ frac) dir =
      some (pyRound
        (if dir = ['S'] ∨ dir = ['W']
          then -((digitsVal [d1, d2] : ℚ) +
            ((digitsVal [m1, m2] : ℚ) + (digitsVal frac : ℚ) / 10 ^ frac.length) / 60)
          else (digitsVal [d1, d2] : ℚ) +
            ((digitsVal [m1, m2] : ℚ) + (digitsVal frac : ℚ) / 10 ^ frac.length) / 60)
        6) := by
  have hdirne : dir ≠ [] := by
    rcases hdir with h | h | h | h <;> simp [h]
  unfold nmeaToDecimal
  rw [if_neg (by simp [hdirne])]
  simp only [findDot_ddmm d1 d2 m1 m2 frac hd1 hd2 hm1 hm2]
  have hsl1 : pySliceTo ([d1, d2, m1, m2, '.'] ++ frac) (((4 : ℕ) : ℤ) - 2) =
      [d1, d2] := rfl
  have hsl2 : pySliceFrom ([d1, d2, m1, m2, '.'] ++ frac) (((4 : ℕ) : ℤ) - 2) =
      [m1, m2, '.'] ++ frac := rfl
  rw [hsl1, hsl2, parsePyFloat_digits [d1, d2] (by simp [allDigits, hd1, hd2])
    (by simp), parsePyFloat_ddfrac m1 m2 frac hm1 hm2 hfrac]

theorem nmea_to_decimal_conversion_witness :
    nmeaToDecimal ['4', '8', '0', '7', '.', '0', '3', '8'] ['N'] =
      some (481173 / 10000 : ℚ) := by
  have h := nmea_to_decimal_conversion '4' '8' '0' '7' ['0', '3', '8'] ['N']
    (by decide) (by decide) (by decide) (by decide) (by decide) (Or.inl rfl)
  rw [if_neg (by simp)] at h
  refine h.trans ?_
  have hq : (digitsVal ['4', '8'] : ℚ) +
      ((digitsVal ['0', '7'] : ℚ) +
        (digitsVal ['0', '3', '8'] : ℚ) / 10 ^ (['0', '3', '8'] : List Char).length) / 60 =
      481173 / 10000 := by
    rw [show digitsVal ['4', '8'] = 48 from rfl, show digitsVal ['0', '7'] = 7 from rfl,
      show digitsVal ['0', '3', '8'] = 38 from rfl,
      show (['0', '3', '8'] : List Char).length = 3 from rfl]
    norm_num
  rw [hq, pyRound_exact 48117300 (by norm_num)]

theorem rmcHeading_latitude (d : GpsFix) (p8 : Option (List Char)) :
    (rmcHeading d p8).latitude = d.latitude := by
  cases p8 with
  | none => rfl
  | some cs =>
      simp only [rmcHeading]
      by_cases h0 : cs = []
      · rw [if_pos h0]
      · rw [if_neg h0]
        cases hp : parsePyFloat cs <;> simp only [hp]

theorem rmcHeading_longitude (d : GpsFix) (p8 : Option (List Char)) :
    (rmcHeading d p8).longitude = d.longitude := by
  cases p8 with
  | none => rfl
  | some cs =>
      simp only [rmcHeading]
      by_cases h0 : cs = []
      · rw [if_pos h0]
      · rw [if_neg h0]
        cases hp : parsePyFloat cs <;> simp only [hp]

theorem rmcHeading_fields (d : GpsFix) (cs : List Char) (hd0 : ℚ)
    (h0 : cs ≠ []) (hv : parsePyFloat cs = some hd0) :
    rmcHeading d (some cs) = { d with heading := some hd0 } := by
  simp only [rmcHeading]
  rw [if_neg h0]
  rw [hv]

/-- The RMC branch never overwrites an already-populated position: the
if guard checks latitude and the speed/heading writes touch neither
position field. -/
theorem processRMC_position (d : GpsFix) (parts : List (List Char)) (la lo : ℚ)
    (hlat : d.latitude = some la) (hlon : d.longitude = some lo) :
    (processRMC d parts).latitude = some la ∧
      (processRMC d parts).longitude = some lo := by
  unfold processRMC
  rw [if_neg (show ¬ d.latitude = none by simp [hlat])]
  constructor
  · split
    · rw [rmcHeading_latitude]; exact hlat
    · split
      · rw [rmcHeading_latitude]; exact hlat
      · exact hlat
  · split
    · rw [rmcHeading_longitude]; exact hlon
    · split
      · rw [rmcHeading_longitude]; exact hlon
      · exact hlon

/-- The RMC branch sets speed (knots times 1.852, one decimal) and
heading whenever its fields parse. -/
theorem processRMC_speed_heading (d : GpsFix) (parts : List (List Char))
    (knots hd0 : ℚ) (p8 : List Char)
    (h7ne : parts.getD 7 [] ≠ [])
    (h7 : parsePyFloat (parts.getD 7 []) = some knots)
    (h8 : parts[8]? = some p8) (h8ne : p8 ≠ [])
    (hh : parsePyFloat p8 = some hd0) :
    (processRMC d parts).speed = some (pyRound (knots * 1.852) 1) ∧
      (processRMC d parts).heading = some hd0 := by
  unfold processRMC
  rw [if_neg h7ne]
  simp only [h7]
  rw [h8, rmcHeading_fields _ p8 hd0 h8ne hh]
  constructor
  · split <;> rfl
  · split <;> rfl

theorem processSentence_skip (d : GpsFix) (s : List Char)
    (h1 : ¬ isGGAParts (s.splitOn ',')) (h2 : ¬ isRMCParts (s.splitOn ',')) :
    processSentence d s = d := by
  simp only [processSentence]
  rw [if_neg h1, if_neg h2]

/-- C8: GGA position is authoritative — a sentence that does not take the
GGA branch leaves a populated latitude/longitude untouched; an RMC
sentence still supplies speed (knots times 1.852) and heading; sentences
that are neither well-formed GGA nor RMC are skipped individually, and a
parse seeing only such sentences returns the fix with every field
absent. -/
theorem parse_nmea_gga_precedence (d : GpsFix) (s : List Char)
    (la lo knots hd0 : ℚ) (p8 : List Char) (sentences : List (List Char)) :
    (¬ isGGAParts (s.splitOn ',') → d.latitude = some la → d.longitude = some lo →
      (processSentence d s).latitude = some la ∧
      (processSentence d s).longitude = some lo) ∧
    (¬ isGGAParts (s.splitOn ',') → isRMCParts (s.splitOn ',') →
      (s.splitOn ',').getD 7 [] ≠ [] →
      parsePyFloat ((s.splitOn ',').getD 7 []) = some knots →
      (s.splitOn ',')[8]? = some p8 → p8 ≠ [] → parsePyFloat p8 = some hd0 →
      (processSentence d s).speed = some (pyRound (knots * 1.852) 1) ∧
      (processSentence d s).heading = some hd0) ∧
    (¬ isGGAParts (s.splitOn ',') → ¬ isRMCParts (s.splitOn ',') →
      processSentence d s = d) ∧
    ((∀ s2 ∈ sentences, ¬ isGGAParts (s2.splitOn ',') ∧ ¬ isRMCParts (s2.splitOn ',')) →
      parseNmea sentences = {}) := by
  refine ⟨?_, ?_, ?_, ?_⟩
  · intro hngga hlat hlon
    simp only [processSentence]
    rw [if_neg hngga]
    split
    · exact processRMC_position d _ la lo hlat hlon
    · exact ⟨hlat, hlon⟩
  · intro hngga hrmc h7ne h7 h8 h8ne hh
    simp only [processSentence]
    rw [if_neg hngga, if_pos hrmc]
    exact processRMC_speed_heading d _ knots hd0 p8 h7ne h7 h8 h8ne hh
  · exact processSentence_skip d s
  · intro hall
    unfold parseNmea
    induction sentences with
    | nil => rfl
    | cons s2 rest ih =>
        rw [List.foldl_cons,
          processSentence_skip _ s2 (hall s2 (List.mem_cons_self ..)).1
            (hall s2 (List.mem_cons_self ..)).2]
        exact ih (fun x hx => hall x (List.mem_cons_of_mem _ hx))

theorem parse_nmea_gga_precedence_witness :
    (processSentence { latitude := some 48, longitude := some 11 }
      ("$GPRMC,123519,A,4807.038,N,01131.000,E,022.4,084.4,230394,003.1,W").toList).latitude =
        some 48 ∧
    (processSentence { latitude := some 48, longitude := some 11 }
      ("$GPRMC,123519,A,4807.038,N,01131.000,E,022.4,084.4,230394,003.1,W").toList).longitude =
        some 11 ∧
    (processSentence {}
      ("$GPRMC,123519,A,4807.038,N,01131.000,E,022.4,084.4,230394,003.1,W").toList).speed =
      some (pyRound (((digitsVal ['0', '2', '2'] : ℚ) +
        (digitsVal ['4'] : ℚ) / 10 ^ (['4'] : List Char).length) * 1.852) 1) ∧
    (processSentence {}
      ("$GPRMC,123519,A,4807.038,N,01131.000,E,022.4,084.4,230394,003.1,W").toList).heading =
      some ((digitsVal ['0', '8', '4'] : ℚ) +
        (digitsVal ['4'] : ℚ) / 10 ^ (['4'] : List Char).length) ∧
    parseNmea [("$GPXTE,A,A,0.67,L,N").toList] = {} := by
  have h1 := (parse_nmea_gga_precedence { latitude := some 48, longitude := some 11 }
    ("$GPRMC,123519,A,4807.038,N,01131.000,E,022.4,084.4,230394,003.1,W").toList
    48 11 0 0 [] []).1 (by decide) rfl rfl
  have h2 := (parse_nmea_gga_precedence {}
    ("$GPRMC,123519,A,4807.038,N,01131.000,E,022.4,084.4,230394,003.1,W").toList
    0 0
    ((digitsVal ['0', '2', '2'] : ℚ) +
      (digitsVal ['4'] : ℚ) / 10 ^ (['4'] : List Char).length)
    ((digitsVal ['0', '8', '4'] : ℚ) +
      (digitsVal ['4'] : ℚ) / 10 ^ (['4'] : List Char).length)
    ['0', '8', '4', '.', '4'] []).2.1
    (by decide) (by decide) (by decide) rfl rfl (by decide) rfl
  have h3 := (parse_nmea_gga_precedence {} [] 0 0 0 0 []
    [("$GPXTE,A,A,0.67,L,N").toList]).2.2.2
    (by decide)
  exact ⟨h1.1, h1.2, h2.1, h2.2, h3⟩

end Gps

section Geo

/-- Python math.radians: degrees times pi over 180. -/
noncomputable def radians (d : ℝ) : ℝ := d * (Real.pi / 180)

/-- Python math.atan2(y, x): the argument of the complex number x + y i. -/
noncomputable def atan2 (y x : ℝ) : ℝ := Complex.arg (Complex.mk x y)

/-- GPSTracker.haversine_distance over ℝ, Earth radius 6 371 000 m. -/
noncomputable def haversine_distance (lat1 lon1 lat2 lon2 : ℝ) : ℝ :=
  let R : ℝ := 6371000
  let phi1 := radians lat1
  let phi2 := radians lat2
  let dphi := radians (lat2 - lat1)
  let dlambda := radians (lon2 - lon1)
  let a := Real.sin (dphi / 2) ^ 2 +
    Real.cos phi1 * Real.cos phi2 * Real.sin (dlambda / 2) ^ 2
  let c := 2 * atan2 (Real.sqrt a) (Real.sqrt (1 - a))
  R * c

/-- GPSTracker.is_inside_geofence: the Python bool 'distance <= radius_m'
modelled as the corresponding proposition. -/
noncomputable def is_inside_geofence (lat lon fence_lat fence_lon radius_m : ℝ) :
    Prop :=
  haversine_distance lat lon fence_lat fence_lon ≤ radius_m

/-- C9: the haversine distance from any point to itself is zero (the two
half-angle sines vanish, so atan2 sees sqrt 0 and sqrt 1 and returns the
argument of 1), and geofence containment is exactly distance less than
or equal to the radius, inclusive at the boundary. -/
theorem haversine_geofence (x y lat lon flat flon r : ℝ) :
    haversine_distance x y x y = 0 ∧
    (is_inside_geofence lat lon flat flon r ↔
      haversine_distance lat lon flat flon ≤ r) ∧
    (haversine_distance lat lon flat flon = r →
      is_inside_geofence lat lon flat flon r) := by
  refine ⟨?_, Iff.rfl, fun h => le_of_eq h⟩
  have hzx : radians (x - x) = 0 := by simp [radians]
  have hzy : radians (y - y) = 0 := by simp [radians]
  simp only [haversine_distance, hzx, hzy, zero_div, Real.sin_zero]
  norm_num
  simp only [atan2]
  rw [show Complex.mk 1 0 = (1 : ℂ) from rfl, Complex.arg_one]

theorem haversine_geofence_witness : is_inside_geofence 0 0 0 0 0 :=
  (haversine_geofence 0 0 0 0 0 0 0).2.2 ((haversine_geofence 0 0 0 0 0 0 0).1)

end Geo

end Fleet
